import Mathlib

/-!
Verification development for the wow.export Blender importer
(src/addons/blender/2.80/io_scene_wowobj/import_wowobj.py).

The Python source is shallowly embedded.  Conventions:

* A text line is represented after `line.split()` tokenization as a
  `List String`; whitespace splitting itself is not claim-relevant.
* Numeric mesh fields (the `float(...)` conversions on `v`/`vn`/`vt`
  payloads) are carried as raw tokens: no claim depends on their numeric
  values, only on which array/channel/group receives them.
* Python exceptions are modelled with `Except PErr`.
* Python list indexing (including negative indices) is `pyIndex`.
* Rotations are stored symbolically: `Angle.deg d` denotes the angle of
  `d` degrees converted to radians (`math.radians(d)` in the source), and
  `Angle.quatComp i q off` denotes component `i` of
  `mathutils.Quaternion(q).to_euler()` plus `radians(off)`.  Keeping the
  degree measure symbolic keeps the model computable while preserving the
  exact computation the source performs (the degree-to-radian map is a
  fixed injective linear map).
-/

namespace WowObj

/-! ### Python / os.path primitives -/

/-- Python list index resolution: a (possibly negative) index `i` against a
list of length `n`; `none` models an `IndexError`. -/
def pyIndex (n : Nat) (i : Int) : Option Nat :=
  if 0 ≤ i then (if i < (n : Int) then some i.toNat else none)
  else if -i ≤ (n : Int) then some (n - (-i).toNat) else none

/-- Python `int(c)` for a single character (`line_str[-1]` in the source). -/
def charDigit? (c : Char) : Option Nat :=
  if c.isDigit then some (c.toNat - '0'.toNat) else none

/-- Digit-string value, `none` on a non-digit or the empty string. -/
def digitsToNat? (l : List Char) : Option Nat :=
  match l with
  | [] => none
  | _ => l.foldl (fun acc c => do pure ((← acc) * 10 + (← charDigit? c))) (some 0)

/-- Python `int(...)` on a decimal token (plain sign-and-digits forms;
`none` models a `ValueError`). -/
def pyInt? (s : String) : Option Int :=
  match s.data with
  | '-' :: rest => (digitsToNat? rest).map (fun n => -(n : Int))
  | '+' :: rest => (digitsToNat? rest).map (fun n => (n : Int))
  | l => (digitsToNat? l).map (fun n => (n : Int))

/-- Python `v.split(b'/')[0]`: text before the first slash. -/
def slashHead (s : String) : String :=
  ⟨s.data.takeWhile (fun c => c ≠ '/')⟩

/-- Split a character list at every slash (`"a/b".split('/')`-style: the
result is never empty). -/
def splitSlash (l : List Char) : List (List Char) :=
  l.foldr
    (fun c acc =>
      if c = '/' then [] :: acc
      else match acc with
        | [] => [[c]]
        | h :: t => (c :: h) :: t)
    [[]]

/-- Rejoin slash-separated components. -/
def joinSlash : List (List Char) → List Char
  | [] => []
  | [x] => x
  | x :: xs => x ++ '/' :: joinSlash xs

/-- Python `os.path.basename` for forward-slash paths. -/
def pyBasename (p : String) : String := ⟨(splitSlash p.data).getLastD []⟩

/-- Python `os.path.split(p)[0]` (directory part) for forward-slash
paths. -/
def osDirname (p : String) : String := ⟨joinSlash (splitSlash p.data).dropLast⟩

/-- Python `os.path.join` for forward-slash relative/absolute paths. -/
def osJoin (a b : String) : String :=
  if b.data.head? = some '/' then b
  else if a = "" then b
  else if a.data.getLast? = some '/' then a ++ b
  else a ++ "/" ++ b

/-- Replace every non-overlapping occurrence of `pat` (left to right), on
character lists.  The fuel argument only serves structural recursion: the
list shrinks by at least one character per step, so fuel equal to the list
length never runs out. -/
def replaceAux (pat sub : List Char) : Nat → List Char → List Char
  | _, [] => []
  | 0, l => l
  | fuel + 1, c :: rest =>
    if pat ≠ [] ∧ pat.isPrefixOf (c :: rest) then
      sub ++ replaceAux pat sub fuel ((c :: rest).drop pat.length)
    else
      c :: replaceAux pat sub fuel rest

/-- Python `str.replace` (all occurrences). -/
def pyReplace (s pat sub : String) : String :=
  ⟨replaceAux pat.toList sub.toList s.toList.length s.toList⟩

/-- Python `str(n).rjust(3, '0')`. -/
def pad3 (n : Nat) : String :=
  let s := toString n
  if 3 ≤ s.data.length then s else ⟨List.replicate (3 - s.data.length) '0'⟩ ++ s

/-- Python exception classes reachable in the importer, plus the spec's
`CyclicReferenceError` (shown never to occur) and an out-of-fuel marker for
the unbounded recursion of the source. -/
inductive PErr where
  | indexError
  | valueError
  | keyError
  | fileNotFound (path : String)
  | outOfFuel
  | cyclicReference
deriving DecidableEq

end WowObj

deriving instance DecidableEq for Except

namespace WowObj

/-! ### MeshDocumentParser: the OBJ streaming loop (source lines 205-247) -/

/-- The per-group `OBJMesh` class (source lines 205-210).  `verts` is a
Python `set` of already 0-based indices; `faces` keeps 1-based triples. -/
structure OBJMesh where
  usemtl : String := ""
  name : String := ""
  verts : Finset Int := ∅
  faces : List (Int × Int × Int) := []
deriving DecidableEq

/-- State of the OBJ streaming loop (source lines 197-213): the global
arrays, the group list and the `meshIndex` counter (which starts at `-1`). -/
structure OBJState where
  mtlfile : String := ""
  verts : List (List String) := []
  normals : List (List String) := []
  uvs : List (List (List String)) := []
  meshes : List OBJMesh := []
  meshIndex : Int := -1
deriving DecidableEq

def defaultOBJMesh : OBJMesh := {}

/-- One iteration of the OBJ line loop (source lines 215-247), dispatching
on the first token exactly in the source's order. -/
def objStep (st : OBJState) (tokens : List String) : Except PErr OBJState :=
  match tokens with
  | [] => .ok st
  | tok :: rest =>
    if tok = "mtllib" then
      match rest.head? with
      | none => .error .indexError
      | some m => .ok { st with mtlfile := m }
    else if tok = "v" then
      .ok { st with verts := st.verts ++ [rest] }
    else if tok = "vn" then
      .ok { st with normals := st.normals ++ [rest] }
    else if "vt".data.isPrefixOf tok.data then
      -- lines 226-236
      match (if 2 < tok.data.length then
               (charDigit? (tok.data.getLastD 'x')).map (fun d : Nat => (d : Int) - 1)
             else some 0) with
      | none => .error .valueError
      | some layerIndex =>
        let uvs := if (st.uvs.length : Int) ≤ layerIndex then st.uvs ++ [[]] else st.uvs
        match pyIndex uvs.length layerIndex with
        | none => .error .indexError
        | some j => .ok { st with uvs := uvs.set j (uvs.getD j [] ++ [rest]) }
    else if tok = "f" then
      -- lines 237-241
      match rest.mapM (fun v => pyInt? (slashHead v)) with
      | none => .error .valueError
      | some fv =>
        match pyIndex st.meshes.length st.meshIndex with
        | none => .error .indexError
        | some j =>
          match fv with
          | i1 :: i2 :: i3 :: _ =>
            let m := st.meshes.getD j defaultOBJMesh
            let m2 : OBJMesh :=
              { m with faces := m.faces ++ [(i1, i2, i3)],
                       verts := fv.foldl (fun s i => insert (i - 1) s) m.verts }
            .ok { st with meshes := st.meshes.set j m2 }
          | _ => .error .indexError
    else if tok = "g" then
      -- lines 242-245
      let st := { st with meshIndex := st.meshIndex + 1,
                          meshes := st.meshes ++ [defaultOBJMesh] }
      match rest.head? with
      | none => .error .indexError
      | some nm =>
        match pyIndex st.meshes.length st.meshIndex with
        | none => .error .indexError
        | some j =>
          let m2 : OBJMesh := { (st.meshes.getD j defaultOBJMesh) with name := nm }
          .ok { st with meshes := st.meshes.set j m2 }
    else if tok = "usemtl" then
      -- lines 246-247
      match rest.head? with
      | none => .error .indexError
      | some u =>
        match pyIndex st.meshes.length st.meshIndex with
        | none => .error .indexError
        | some j =>
          let m2 : OBJMesh := { (st.meshes.getD j defaultOBJMesh) with usemtl := u }
          .ok { st with meshes := st.meshes.set j m2 }
    else
      .ok st

/-- The whole OBJ pass (source lines 214-247). -/
def objParse (lines : List (List String)) : Except PErr OBJState :=
  lines.foldlM objStep {}

/-! ### MaterialLibraryParser: the MTL loop (source lines 252-268) -/

/-- Python `dict` assignment: overwrite in place when the key exists,
append otherwise (insertion order preserved). -/
def dictSet (d : List (String × String)) (k v : String) : List (String × String) :=
  if d.any (fun p => p.1 == k) then
    d.map (fun p => if p.1 == k then (k, v) else p)
  else d ++ [(k, v)]

/-- Python `dict` lookup. -/
def dictGet? (d : List (String × String)) (k : String) : Option String :=
  (d.find? (fun p => p.1 == k)).map (·.2)

/-- State of the MTL loop: `matname` (current material, initially the empty
string, line 254) and the `materials` dict. -/
structure MTLState where
  matname : String := ""
  materials : List (String × String) := []
deriving DecidableEq

/-- One iteration of the MTL line loop (source lines 258-268).  Note that
the `map_Kd` path is joined with `baseDir`, the directory of the OBJ file
(line 268), not with the directory of the MTL file itself. -/
def mtlStep (baseDir : String) (st : MTLState) (tokens : List String) :
    Except PErr MTLState :=
  match tokens with
  | [] => .ok st
  | tok :: rest =>
    if tok = "newmtl" then
      match rest.head? with
      | none => .error .indexError
      | some n => .ok { st with matname := n }
    else if tok = "map_Kd" then
      match rest.head? with
      | none => .error .indexError
      | some f => .ok { st with materials := dictSet st.materials st.matname (osJoin baseDir f) }
    else .ok st

/-- The whole MTL pass (source lines 256-268). -/
def mtlParse (baseDir : String) (lines : List (List String)) : Except PErr MTLState :=
  lines.foldlM (mtlStep baseDir) {}

/-- Follows the spec's words, for comparison with `mtlStep`: the binding a
`map_Kd` token would receive were it "resolved relative to the library
file's own directory". -/
def specMapKdBinding (libraryPath mapToken : String) : String :=
  osJoin (osDirname libraryPath) mapToken

/-! ### SceneAssembler: the Blender scene model

Blender state observable by the importer's placement logic: the set of
objects (`bpy.data.objects`: name-unique, each with a data block, parent
and transform), the scene custom property `importedModelIDs` and the
console output.  Mesh construction, materials, vertex groups and
collection linking are host API calls with no effect on these observables;
geometry identity is tracked by `dataId` (two objects share a mesh data
block exactly when their `dataId`s are equal). -/

abbrev Vec3 := ℚ × ℚ × ℚ

/-- One Euler angle component.  `deg d` denotes `math.radians(d)`;
`quatComp i q off` denotes component `i` of
`mathutils.Quaternion(q).to_euler()` plus `math.radians(off)` (the 4-tuple
`q` is stored exactly as written at the call site; Blender reads it as
`(w, x, y, z)`). -/
inductive Angle where
  | deg (d : ℚ)
  | quatComp (i : Fin 3) (q : ℚ × ℚ × ℚ × ℚ) (offsetDeg : ℚ)
deriving DecidableEq

/-- Adding `math.radians(d)` to an angle (the `+= radians(d)` statements). -/
def Angle.addDeg : Angle → ℚ → Angle
  | .deg a, d => .deg (a + d)
  | .quatComp i q o, d => .quatComp i q (o + d)

structure Euler where
  x : Angle
  y : Angle
  z : Angle
deriving DecidableEq

/-- The `[0, 0, 0]` Euler reset. -/
def euler0 : Euler := ⟨.deg 0, .deg 0, .deg 0⟩

/-- A `bpy.data.objects` entry.  `dataId = none` models an empty
(`data = None`); Blender's defaults for a fresh object are zero location,
zero rotation and unit scale. -/
structure BObject where
  oid : Nat
  name : String
  dataId : Option Nat := none
  parentId : Option Nat := none
  location : Vec3 := (0, 0, 0)
  rotation : Euler := euler0
  scale : Vec3 := (1, 1, 1)
deriving DecidableEq

/-- The Blender state the importer reads and writes. -/
structure Scene where
  objects : List BObject := []
  nextOid : Nat := 0
  nextDataId : Nat := 0
  importedModelIDs : Option (List String) := none
  log : List String := []
deriving DecidableEq

def emptyScene : Scene := {}

/-- Membership test `name in bpy.data.objects`. -/
def Scene.hasName (sc : Scene) (n : String) : Bool :=
  sc.objects.any (fun b => b.name == n)

/-- Lookup `bpy.data.objects[name]`. -/
def Scene.findByName (sc : Scene) (n : String) : Option BObject :=
  sc.objects.find? (fun b => b.name == n)

/-- Lookup an object by its identity. -/
def Scene.getByOid (sc : Scene) (i : Nat) : Option BObject :=
  sc.objects.find? (fun b => b.oid == i)

/-- A `print(...)` call. -/
def Scene.addLog (sc : Scene) (m : String) : Scene :=
  { sc with log := sc.log ++ [m] }

/-- The write `bpy.context.scene['importedModelIDs'] = ...` (line 515). -/
def Scene.setIDs (sc : Scene) (l : List String) : Scene :=
  { sc with importedModelIDs := some l }

/-- Blender's automatic `.001`, `.002`, ... suffixing when a requested
object name is taken.  The fuel `objects.length + 1` suffices by
pigeonhole; the fallback arm is unreachable. -/
def freshNameAux (sc : Scene) (base : String) : Nat → Nat → String
  | k, 0 => base ++ "." ++ pad3 k
  | k, fuel + 1 =>
    let cand := base ++ "." ++ pad3 k
    if sc.hasName cand then freshNameAux sc base (k + 1) fuel else cand

def freshName (sc : Scene) (base : String) : String :=
  if sc.hasName base then freshNameAux sc base 1 (sc.objects.length + 1) else base

/-- `bpy.data.objects.new(base, data)`: registers a fresh object (with
Blender's default transform) under a collision-free name. -/
def Scene.newObject (sc : Scene) (base : String) (dataId : Option Nat) :
    Nat × Scene :=
  (sc.nextOid,
   { sc with
       objects := sc.objects ++ [{ oid := sc.nextOid, name := freshName sc base, dataId }],
       nextOid := sc.nextOid + 1 })

/-- `originalObject.copy()`: a fresh object sharing every property of the
source, including its data block, parent and transform (name suffixed). -/
def Scene.copyObject (sc : Scene) (src : BObject) : Nat × Scene :=
  (sc.nextOid,
   { sc with
       objects := sc.objects ++ [{ src with oid := sc.nextOid, name := freshName sc src.name }],
       nextOid := sc.nextOid + 1 })

/-- `bpy.data.meshes.new(...)` or `originalObject.data.copy()`: a fresh
mesh data block identity. -/
def Scene.newMeshData (sc : Scene) : Nat × Scene :=
  (sc.nextDataId, { sc with nextDataId := sc.nextDataId + 1 })

def Scene.modifyObj (sc : Scene) (i : Nat) (f : BObject → BObject) : Scene :=
  { sc with objects := sc.objects.map (fun b => if b.oid = i then f b else b) }

def Scene.setLoc (sc : Scene) (i : Nat) (v : Vec3) : Scene :=
  sc.modifyObj i (fun b => { b with location := v })

def Scene.setRot (sc : Scene) (i : Nat) (e : Euler) : Scene :=
  sc.modifyObj i (fun b => { b with rotation := e })

def Scene.mapRot (sc : Scene) (i : Nat) (f : Euler → Euler) : Scene :=
  sc.modifyObj i (fun b => { b with rotation := f b.rotation })

def Scene.setScale (sc : Scene) (i : Nat) (v : Vec3) : Scene :=
  sc.modifyObj i (fun b => { b with scale := v })

def Scene.setParentOf (sc : Scene) (i : Nat) (p : Option Nat) : Scene :=
  sc.modifyObj i (fun b => { b with parentId := p })

def Scene.setDataOf (sc : Scene) (i : Nat) (d : Option Nat) : Scene :=
  sc.modifyObj i (fun b => { b with dataId := d })

/-! ### Placement table and file system inputs -/

/-- One CSV row, with the numeric columns already through their
`float(...)` conversions (the reader yields strings; every use site
converts).  `ScaleFactor = none` models the falsy empty string in
`if row['ScaleFactor']:`.  `rowType` is the `Type` column (meaningless for
tables without that column). -/
structure Row where
  rowType : String := ""
  ModelId : String := ""
  ModelFile : String := ""
  PositionX : ℚ := 0
  PositionY : ℚ := 0
  PositionZ : ℚ := 0
  RotationX : ℚ := 0
  RotationY : ℚ := 0
  RotationZ : ℚ := 0
  RotationW : ℚ := 0
  ScaleFactor : Option ℚ := none
deriving DecidableEq

/-- A parsed `_ModelPlacementInformation.csv`: `hasType` is the
`'Type' in reader.fieldnames` test (line 390). -/
structure CSVTable where
  hasType : Bool
  rows : List Row
deriving DecidableEq

/-- The file system: which paths exist, and the placement table that a
path parses to when opened as CSV (existence of a table entry doubles as
`os.path.exists` for the csv path). -/
structure FS where
  files : List String := []
  tables : List (String × CSVTable) := []
deriving DecidableEq

def FS.lookupTable (fs : FS) (p : String) : Option CSVTable :=
  (fs.tables.find? (fun e => e.1 == p)).map (·.2)

/-- The recognized configuration options (source `settings`). -/
structure Settings where
  importTextures : Bool := false
  useAlpha : Bool := false
  useTerrainBlending : Bool := false
  importWMO : Bool := false
  importM2 : Bool := false
  importWMOSets : Bool := false
  importGOBJ : Bool := false
  allowDuplicates : Bool := false
  createVertexGroups : Bool := false
deriving DecidableEq

/-- `max_size = 51200 / 3` (line 379). -/
def max_size : ℚ := 51200 / 3

def csvSuffix : String := "_ModelPlacementInformation.csv"

/-- Shape of the recursive `importWoWOBJ` call. -/
abbrev Importer := String → Option Nat → Scene → Except PErr (Nat × Scene)

/-- The ADT `wmo` branch (source lines 444-474).  The parent empty is
created and transformed first; only then is the referenced OBJ resolved:
fresh import when the base name is not in `bpy.data.objects`, fresh import
when it is but a placement CSV exists next to the referenced file
("don't copy WMOs with doodads"), otherwise a copy whose data block is
duplicated (`importedFile.data = originalObject.data.copy()`). -/
def adtWMOBranch (rec : Importer) (fs : FS) (baseDir : String)
    (wmoparent : Option Nat) (sc : Scene) (row : Row) : Except PErr Scene := do
  let sc := sc.addLog ("ADT WMO import: " ++ row.ModelFile)
  -- lines 448-449
  let (pid, sc) := sc.newObject (pyBasename row.ModelFile ++ " parent") none
  let sc := sc.setParentOf pid wmoparent
  -- line 450
  let sc := sc.setLoc pid
    (max_size - row.PositionX, -(max_size - row.PositionZ), row.PositionY)
  -- lines 451-454
  let sc := sc.setRot pid euler0
  let sc := sc.mapRot pid (fun e => { e with x := e.x.addDeg row.RotationZ })
  let sc := sc.mapRot pid (fun e => { e with y := e.y.addDeg row.RotationX })
  let sc := sc.mapRot pid (fun e => { e with z := .deg (90 + row.RotationY) })
  -- lines 456-457
  let sc := match row.ScaleFactor with
    | some s => sc.setScale pid (s, s, s)
    | none => sc
  -- lines 461-472
  let (ifid, sc) ←
    if sc.hasName (pyBasename row.ModelFile) = false then
      rec (osJoin baseDir row.ModelFile) (some pid) sc
    else if (fs.lookupTable (osJoin baseDir (pyReplace row.ModelFile ".obj" csvSuffix))).isSome then
      rec (osJoin baseDir row.ModelFile) (some pid) sc
    else
      match sc.findByName (pyBasename row.ModelFile) with
      | none => throw .keyError
      | some orig =>
        let (cid, sc) := sc.copyObject orig
        let (d, sc) := sc.newMeshData
        pure (cid, sc.setDataOf cid (some d))
  -- line 474
  pure (sc.setParentOf ifid (some pid))

/-- The ADT `m2` branch (source lines 475-497): fresh import when the base
name is unknown, otherwise a copy sharing the original's data block with
its rotation reset to `+90deg` about x; then parenting under the Doodads
empty and the coordinate transform. -/
def adtM2Branch (rec : Importer) (baseDir : String)
    (doodadparent : Option Nat) (sc : Scene) (row : Row) : Except PErr Scene := do
  let sc := sc.addLog ("ADT M2 import: " ++ row.ModelFile)
  -- lines 479-486
  let (ifid, sc) ←
    if sc.hasName (pyBasename row.ModelFile) = false then
      rec (osJoin baseDir row.ModelFile) none sc
    else
      match sc.findByName (pyBasename row.ModelFile) with
      | none => throw .keyError
      | some orig =>
        let (cid, sc) := sc.copyObject orig
        let sc := sc.setRot cid euler0
        let sc := sc.mapRot cid (fun e => { e with x := .deg 90 })
        pure (cid, sc)
  -- line 488
  let sc := sc.setParentOf ifid doodadparent
  -- lines 490-492
  let sc := sc.setLoc ifid
    (max_size - row.PositionX, -(max_size - row.PositionZ), row.PositionY)
  -- lines 493-495
  let sc := sc.mapRot ifid (fun e => { e with x := e.x.addDeg row.RotationZ })
  let sc := sc.mapRot ifid (fun e => { e with y := e.y.addDeg row.RotationX })
  let sc := sc.mapRot ifid (fun e => { e with z := .deg (90 + row.RotationY) })
  -- lines 496-497
  pure (match row.ScaleFactor with
        | some s => sc.setScale ifid (s, s, s)
        | none => sc)

/-- The ADT `gobj` branch (source lines 498-514). -/
def adtGOBJBranch (rec : Importer) (baseDir : String)
    (gobjparent : Option Nat) (sc : Scene) (row : Row) : Except PErr Scene := do
  -- lines 499-506
  let (ifid, sc) ←
    if sc.hasName (pyBasename row.ModelFile) = false then
      rec (osJoin baseDir row.ModelFile) none sc
    else
      match sc.findByName (pyBasename row.ModelFile) with
      | none => throw .keyError
      | some orig =>
        let (cid, sc) := sc.copyObject orig
        let sc := sc.setRot cid euler0
        let sc := sc.mapRot cid (fun e => { e with x := .deg 90 })
        pure (cid, sc)
  -- line 508
  let sc := sc.setParentOf ifid gobjparent
  -- line 509
  let sc := sc.setLoc ifid (row.PositionY, -row.PositionX, row.PositionZ)
  -- lines 510-512
  let q := (row.RotationX, row.RotationY, -row.RotationZ, row.RotationW)
  let sc := sc.setRot ifid ⟨.quatComp 0 q 0, .quatComp 1 q 0, .quatComp 2 q 0⟩
  -- lines 513-514
  pure (match row.ScaleFactor with
        | some s => sc.setScale ifid (s, s, s)
        | none => sc)

/-- One iteration of the row loop for an ADT-style table (source lines
431-515).  The registry is re-read from the scene property each row (lines
432-435); a duplicate `ModelId` is skipped with a log message when
duplicates are not allowed (lines 436-439); otherwise the `ModelId` is
recorded when new (line 441), the category branch runs, and the updated
list is written back to the scene property (line 515) - note that this
write happens after the branch (and thus after any recursion inside it),
and that it happens even when no category branch matched. -/
def processADTRow (rec : Importer) (fs : FS) (settings : Settings) (baseDir : String)
    (wmoparent doodadparent gobjparent : Option Nat) (sc : Scene) (row : Row) :
    Except PErr Scene :=
  let tempModelIDList := sc.importedModelIDs.getD []
  if row.ModelId ∈ tempModelIDList then
    if settings.allowDuplicates then
      processADTRowBody tempModelIDList sc
    else
      .ok (sc.addLog ("Skipping already imported model " ++ row.ModelId))
  else
    processADTRowBody (tempModelIDList ++ [row.ModelId]) sc
where
  processADTRowBody (tempModelIDList : List String) (sc : Scene) :
      Except PErr Scene := do
    let sc ←
      if row.rowType = "wmo" ∧ settings.importWMO = true then
        adtWMOBranch rec fs baseDir wmoparent sc row
      else if row.rowType = "m2" ∧ settings.importM2 = true then
        adtM2Branch rec baseDir doodadparent sc row
      else if row.rowType = "gobj" ∧ settings.importGOBJ = true then
        adtGOBJBranch rec baseDir gobjparent sc row
      else
        pure sc
    pure (sc.setIDs tempModelIDList)

/-- One iteration of the row loop for a WMO-style table (source lines
516-535); rows are only processed when `importWMOSets` is enabled.  The
copy path shares the original's data block and keeps its transform until
the unconditional resets below it. -/
def processWMORow (rec : Importer) (settings : Settings) (baseDir : String)
    (givenParent : Option Nat) (objId : Nat) (sc : Scene) (row : Row) :
    Except PErr Scene :=
  if settings.importWMOSets = false then .ok sc
  else do
    let sc := sc.addLog ("WMO M2 import: " ++ row.ModelFile)
    -- lines 519-524
    let (ifid, sc) ←
      if sc.hasName (pyBasename row.ModelFile) = false then
        rec (osJoin baseDir row.ModelFile) none sc
      else
        match sc.findByName (pyBasename row.ModelFile) with
        | none => throw .keyError
        | some orig => pure (sc.copyObject orig)
    -- line 526
    let sc := sc.setLoc ifid (row.PositionX, row.PositionY, row.PositionZ)
    -- lines 528-532
    let sc := sc.setRot ifid euler0
    let q := (row.RotationW, row.RotationX, row.RotationY, row.RotationZ)
    let sc := sc.setRot ifid ⟨.quatComp 0 q 90, .quatComp 1 q 0, .quatComp 2 q 0⟩
    -- line 533: `importedFile.parent = givenParent or obj`
    let sc := sc.setParentOf ifid (some (match givenParent with
                                         | some g => g
                                         | none => objId))
    -- lines 534-535
    pure (match row.ScaleFactor with
          | some s => sc.setScale ifid (s, s, s)
          | none => sc)

/-- The recursive importer `importWoWOBJ` (source lines 192-537),
restricted to the observables of the scene model: opening the OBJ file
(line 214, `FileNotFoundError` when absent), creating the mesh data block
and object (lines 284-285; the `newname` computed at lines 277-282 is dead
code), the `+90deg` about x base orientation (lines 372-373), and the
placement-table processing (lines 384-536).  Mesh geometry, materials and
vertex groups only feed host API calls outside these observables.  `fuel`
bounds the recursion depth; the source has no such bound. -/
def importGo (fs : FS) (settings : Settings) : Nat → Importer
  | 0 => fun _ _ _ => throw .outOfFuel
  | fuel + 1 => fun objectFile givenParent sc => do
    let baseDir := osDirname objectFile
    -- line 195
    let sc := sc.addLog ("Parsing OBJ: " ++ pyBasename objectFile)
    -- line 214
    if objectFile ∈ fs.files then do
      -- lines 284-285
      let (dId, sc) := sc.newMeshData
      let (objId, sc) := sc.newObject (pyBasename objectFile) (some dId)
      -- lines 372-373
      let sc := sc.setRot objId euler0
      let sc := sc.mapRot objId (fun e => { e with x := .deg 90 })
      -- lines 384-387
      let csvPath := pyReplace objectFile ".obj" csvSuffix
      let use_csv := settings.importWMO || settings.importM2 ||
                     settings.importWMOSets || settings.importGOBJ
      match (if use_csv then fs.lookupTable csvPath else none) with
      | none => pure (objId, sc)
      | some table =>
        if table.hasType then do
          -- ADT: group parents are created up front per enabled flag
          -- (lines 393-418)
          let (wmoparent, sc) :=
            if settings.importWMO then
              let (w, sc) := sc.newObject "WMOs" none
              let sc := sc.setParentOf w (some objId)
              let sc := sc.setRot w euler0
              let sc := sc.mapRot w (fun e => { e with x := .deg (-90) })
              (some w, sc)
            else (none, sc)
          let (doodadparent, sc) :=
            if settings.importM2 then
              let (w, sc) := sc.newObject "Doodads" none
              let sc := sc.setParentOf w (some objId)
              let sc := sc.setRot w euler0
              let sc := sc.mapRot w (fun e => { e with x := .deg (-90) })
              (some w, sc)
            else (none, sc)
          let (gobjparent, sc) :=
            if settings.importGOBJ then
              let (w, sc) := sc.newObject "GameObjects" none
              let sc := sc.setParentOf w (some objId)
              let sc := sc.setRot w euler0
              let sc := sc.mapRot w (fun e => { e with x := .deg (-90) })
              (some w, sc)
            else (none, sc)
          -- lines 430-515
          let sc ← table.rows.foldlM
            (fun s r => processADTRow (importGo fs settings fuel) fs settings
                          baseDir wmoparent doodadparent gobjparent s r) sc
          pure (objId, sc)
        else do
          -- WMO-style: lines 420-429; the created parent is renamed
          -- 'Doodads' immediately (line 426), modelled as creation under
          -- that name
          let (gp, sc) :=
            match givenParent with
            | some g => (some g, sc)
            | none =>
              let sc := sc.addLog "WMO import without given parent, creating.."
              if settings.importWMOSets then
                let (g, sc) := sc.newObject "Doodads" none
                let sc := sc.setParentOf g (some objId)
                let sc := sc.setRot g euler0
                let sc := sc.mapRot g (fun e => { e with x := .deg (-90) })
                (some g, sc)
              else (none, sc)
          -- lines 430, 516-535
          let sc ← table.rows.foldlM
            (fun s r => processWMORow (importGo fs settings fuel) settings
                          baseDir gp objId s r) sc
          pure (objId, sc)
    else
      throw (.fileNotFound objectFile)

/-- Number of objects parented to object `p`. -/
def childCount (sc : Scene) (p : Nat) : Nat :=
  (sc.objects.filter (fun b => b.parentId == some p)).length

/-! ### Concrete scenarios used by counterexamples and witnesses -/

/-- Settings with only `importM2` enabled. -/
def stM2 : Settings := { importM2 := true }

/-- Settings with only `importWMO` enabled. -/
def stWMO : Settings := { importWMO := true }

/-- A terrain tile `t/A.obj` whose ADT table places the doodad `m.obj`
twice: first with `ScaleFactor` 2, then (under a different `ModelId`) with
an empty `ScaleFactor`. -/
def fsScale : FS :=
  { files := ["t/A.obj", "t/m.obj"],
    tables := [("t/A_ModelPlacementInformation.csv", ⟨true,
      [{ rowType := "m2", ModelId := "1", ModelFile := "m.obj", ScaleFactor := some 2 },
       { rowType := "m2", ModelId := "2", ModelFile := "m.obj", ScaleFactor := none }]⟩)] }

/-- Two independent tiles `A.obj` and `B.obj` whose tables both use
`ModelId` 7, for different doodads. -/
def fsTwoTiles : FS :=
  { files := ["A.obj", "B.obj", "m.obj", "n.obj"],
    tables := [("A_ModelPlacementInformation.csv", ⟨true,
                  [{ rowType := "m2", ModelId := "7", ModelFile := "m.obj" }]⟩),
               ("B_ModelPlacementInformation.csv", ⟨true,
                  [{ rowType := "m2", ModelId := "7", ModelFile := "n.obj" }]⟩)] }

/-- A tile whose ADT table references the tile's own OBJ as a `wmo`: a
directly cyclic placement. -/
def fsCyclic : FS :=
  { files := ["A.obj"],
    tables := [("A_ModelPlacementInformation.csv", ⟨true,
      [{ rowType := "wmo", ModelId := "1", ModelFile := "A.obj" }]⟩)] }

/-- A tile whose first placement row references a file that does not
exist, followed by a resolvable row. -/
def fsMissing : FS :=
  { files := ["t/A.obj", "t/m.obj"],
    tables := [("t/A_ModelPlacementInformation.csv", ⟨true,
      [{ rowType := "m2", ModelId := "1", ModelFile := "missing.obj" },
       { rowType := "m2", ModelId := "2", ModelFile := "m.obj" }]⟩)] }

/-- A tile with a single `m2` row, to be imported with `importM2`
disabled (but `importWMO` enabled so the CSV is still read). -/
def fsDisabled : FS :=
  { files := ["A.obj", "m.obj"],
    tables := [("A_ModelPlacementInformation.csv", ⟨true,
      [{ rowType := "m2", ModelId := "9", ModelFile := "m.obj" }]⟩)] }

/-- A placeholder recursive importer used to instantiate the general row
lemmas on rows whose category branch never runs. -/
def recStub : Importer := fun _ _ _ => throw .outOfFuel

/-- A placement row used to instantiate the dedup theorem on a concrete
two-row table. -/
def dedupRow : Row := { rowType := "m2", ModelId := "42", ModelFile := "m.obj" }

/-- A scene already holding an imported object named `w.obj` whose mesh
data block is block 0, used to instantiate the instancing theorem. -/
def c4Scene : Scene :=
  { objects := [{ oid := 0, name := "w.obj", dataId := some 0 }],
    nextOid := 1, nextDataId := 1 }

/-- A placement row referencing `w.obj`. -/
def c4Row : Row := { rowType := "wmo", ModelId := "7", ModelFile := "w.obj" }

/-- A file system where `w.obj` exists and carries its own (empty,
WMO-style) placement table. -/
def c4Fs : FS :=
  { files := ["w.obj"],
    tables := [("w_ModelPlacementInformation.csv", ⟨false, []⟩)] }

/-- A file system holding just `m.obj` with no placement table, for the
fresh-import instantiation of the transform theorem. -/
def c1Fs : FS := { files := ["m.obj"] }

/-- An OBJ parser state with a single existing UV channel. -/
def c9St : OBJState := { uvs := [[["a"]]] }

/-- The proposition that a computation did not fail with a (nonexistent in
the source) cyclic-reference error. -/
def NoCyc (x : Except PErr α) : Prop := x ≠ .error .cyclicReference

/-! ### Generic helper lemmas -/

@[simp] theorem exceptBindOk (a : α) (f : α → Except ε β) :
    (Except.ok a >>= f) = f a := rfl

@[simp] theorem exceptBindErr (e : ε) (f : α → Except ε β) :
    ((Except.error e : Except ε α) >>= f) = Except.error e := rfl

@[simp] theorem exceptPureEq (a : α) : (pure a : Except ε α) = Except.ok a := rfl

@[simp] theorem exceptThrowEq (e : ε) : (throw e : Except ε α) = Except.error e := rfl

theorem listGetDSetSelf (l : List α) (i : Nat) (a dflt : α) (h : i < l.length) :
    (l.set i a).getD i dflt = a := by
  induction l generalizing i with
  | nil => simp at h
  | cons x t ih =>
    cases i with
    | zero => simp [List.set, List.getD]
    | succ j =>
      simp only [List.set, List.getD_cons_succ]
      exact ih j (by simpa using h)

theorem listGetDSetNe (l : List α) (i j : Nat) (a dflt : α) (h : j ≠ i) :
    (l.set i a).getD j dflt = l.getD j dflt := by
  induction l generalizing i j with
  | nil => simp [List.set]
  | cons x t ih =>
    cases i with
    | zero =>
      cases j with
      | zero => exact absurd rfl h
      | succ j2 => simp [List.set]
    | succ i2 =>
      cases j with
      | zero => simp [List.set]
      | succ j2 =>
        simp only [List.set, List.getD_cons_succ]
        exact ih i2 j2 (fun he => h (by simp [he]))

theorem listGetDAppendLt (l l2 : List α) (j : Nat) (dflt : α) (h : j < l.length) :
    (l ++ l2).getD j dflt = l.getD j dflt := by
  induction l generalizing j with
  | nil => simp at h
  | cons x t ih =>
    cases j with
    | zero => simp
    | succ j2 =>
      simp only [List.cons_append, List.getD_cons_succ]
      exact ih j2 (by simpa using h)

theorem listGetDAppendGe (l l2 : List α) (j : Nat) (dflt : α) (h : l.length ≤ j) :
    (l ++ l2).getD j dflt = l2.getD (j - l.length) dflt := by
  induction l generalizing j with
  | nil => simp
  | cons x t ih =>
    cases j with
    | zero => simp at h
    | succ j2 =>
      simp only [List.cons_append, List.getD_cons_succ, List.length_cons]
      rw [ih j2 (by simpa using h)]
      congr 1
      omega

theorem listGetDGe (l : List α) (j : Nat) (dflt : α) (h : l.length ≤ j) :
    l.getD j dflt = dflt := by
  induction l generalizing j with
  | nil => cases j <;> simp [List.getD]
  | cons x t ih =>
    cases j with
    | zero => simp at h
    | succ j2 =>
      simp only [List.getD_cons_succ]
      exact ih j2 (by simpa using h)

/-! ### Claims C8-C10: the parsers -/

theorem findDictSetHit (d : List (String × String)) (k v : String)
    (h : d.any (fun p => p.1 == k) = true) :
    (d.map (fun p => if p.1 == k then (k, v) else p)).find? (fun p => p.1 == k)
      = some (k, v) := by
  induction d with
  | nil => simp at h
  | cons p t ih =>
    by_cases hp : p.1 == k
    · simp [List.find?, hp]
    · have ht : t.any (fun p => p.1 == k) = true := by
        simpa [List.any_cons, hp] using h
      simpa [List.find?, hp] using ih ht

theorem findDictSetMiss (d : List (String × String)) (k v : String)
    (h : d.any (fun p => p.1 == k) = false) :
    ((d ++ [(k, v)]).find? (fun p => p.1 == k)) = some (k, v) := by
  induction d with
  | nil => simp [List.find?]
  | cons p t ih =>
    have hp : (p.1 == k) = false := by
      by_contra hc
      simp [List.any_cons, eq_true_of_ne_false hc] at h
    have ht : t.any (fun p => p.1 == k) = false := by
      simpa [List.any_cons, hp] using h
    simpa [List.find?, hp] using ih ht

/-- Assigning `d[k] = v` makes a later lookup of `k` return `v`
(Python dict semantics: the last assignment wins). -/
theorem dictGetDictSet (d : List (String × String)) (k v : String) :
    dictGet? (dictSet d k v) k = some v := by
  unfold dictGet? dictSet
  by_cases h : d.any (fun p => p.1 == k) = true
  · rw [if_pos h, findDictSetHit d k v h]
    rfl
  · rw [if_neg h, findDictSetMiss d k v (by rwa [Bool.not_eq_true] at h)]
    rfl

/-- C8 counterexample.  The OBJ at directory `d` names the library
`sub/lib.mtl`, so the library file itself lives at `d/sub/lib.mtl` and its
own directory is `d/sub`; yet the importer binds the `map_Kd` token
`tex.png` to `d/tex.png` (joined with the OBJ's directory), not to the
library-directory-relative `d/sub/tex.png` the claim prescribes. -/
theorem C8_counterexample :
    (objParse [["mtllib", "sub/lib.mtl"]]).map (fun st => st.mtlfile) = .ok "sub/lib.mtl"
    ∧ osJoin "d" "sub/lib.mtl" = "d/sub/lib.mtl"
    ∧ (mtlParse "d" [["newmtl", "m"], ["map_Kd", "tex.png"]]).map
        (fun st => dictGet? st.materials "m") = .ok (some "d/tex.png")
    ∧ specMapKdBinding "d/sub/lib.mtl" "tex.png" = "d/sub/tex.png"
    ∧ "d/tex.png" ≠ "d/sub/tex.png" := by
  refine ⟨by decide, by decide, by decide, by decide, by decide⟩

/-- C8 (amended): each `map_Kd` line binds the current material name (the
one set by the most recent `newmtl` line) to the token joined with
the importing OBJ file's directory `baseDir` - coinciding with the
library's own directory only when the `mtllib` reference has no directory
part - and a repeated binding for the same name overwrites the earlier
one, so the last `map_Kd` wins. -/
theorem C8_mapkd_binding (baseDir : String) (st : MTLState) (f n : String)
    (r1 r2 : List String) :
    mtlStep baseDir st ("map_Kd" :: f :: r1)
        = .ok { st with materials := dictSet st.materials st.matname (osJoin baseDir f) }
    ∧ dictGet? (dictSet st.materials st.matname (osJoin baseDir f)) st.matname
        = some (osJoin baseDir f)
    ∧ mtlStep baseDir st ("newmtl" :: n :: r2) = .ok { st with matname := n } := by
  refine ⟨?_, dictGetDictSet _ _ _, ?_⟩ <;> simp [mtlStep]

/-- C9 counterexample.  A `vt3` line crashes with an `IndexError` both as
the very first texture-coordinate line and when only channel 0 exists so
far: `uvs.append([])` grows the channel list by at most one slot, so a
higher channel index appearing does not make the parser succeed. -/
theorem C9_counterexample :
    objParse [["vt3", "0", "0"]] = .error .indexError
    ∧ objParse [["vt", "0", "0"], ["vt3", "1", "1"]] = .error .indexError := by
  refine ⟨by decide, by decide⟩

/-- Channel update performed by a `vt` line writing channel `j` when no
gap is present (`j ≤ uvs.length`): the channel list grows by exactly the
one lazily appended slot when needed, channel `j` gains the entry, and
every other channel is unchanged. -/
theorem vtChannelApply (uvs : List (List (List String))) (entry : List String) (j : Nat)
    (h : j ≤ uvs.length) :
    ((if uvs.length ≤ j then uvs ++ [[]] else uvs).set j
        ((if uvs.length ≤ j then uvs ++ [[]] else uvs).getD j [] ++ [entry])).length
        = max uvs.length (j + 1)
    ∧ ((if uvs.length ≤ j then uvs ++ [[]] else uvs).set j
        ((if uvs.length ≤ j then uvs ++ [[]] else uvs).getD j [] ++ [entry])).getD j []
        = uvs.getD j [] ++ [entry]
    ∧ ∀ i, i ≠ j →
        ((if uvs.length ≤ j then uvs ++ [[]] else uvs).set j
            ((if uvs.length ≤ j then uvs ++ [[]] else uvs).getD j [] ++ [entry])).getD i []
          = uvs.getD i [] := by
  by_cases hg : uvs.length ≤ j
  · have hj : j = uvs.length := le_antisymm h hg
    rw [if_pos hg]
    refine ⟨?_, ?_, ?_⟩
    · rw [List.length_set, List.length_append]
      simp [hj]
    · rw [listGetDSetSelf _ _ _ _ (by simp [hj]),
          listGetDAppendGe _ _ _ _ (by omega), listGetDGe _ _ _ (le_of_eq hj.symm)]
      simp [hj]
    · intro i hi
      rw [listGetDSetNe _ _ _ _ _ hi]
      rcases lt_or_ge i uvs.length with hlt | hge
      · exact listGetDAppendLt _ _ _ _ hlt
      · rw [listGetDGe _ _ _ hge, listGetDAppendGe _ _ _ _ hge]
        have : i - uvs.length ≠ 0 := by omega
        rw [listGetDGe]
        simp only [List.length_cons, List.length_nil]
        omega
  · have hlt : j < uvs.length := lt_of_not_ge hg
    rw [if_neg hg]
    refine ⟨?_, listGetDSetSelf _ _ _ _ hlt, ?_⟩
    · rw [List.length_set]
      omega
    · intro i hi
      exact listGetDSetNe _ _ _ _ _ hi

/-- Reduction of `objStep` on a suffixed `vt` token with digit value `d`. -/
theorem objStepVtReduce (st : OBJState) (tok : String) (entry : List String) (d : Nat)
    (h1 : tok ≠ "mtllib") (h2 : tok ≠ "v") (h3 : tok ≠ "vn")
    (h4 : "vt".data.isPrefixOf tok.data = true)
    (h5 : 2 < tok.data.length)
    (h6 : charDigit? (tok.data.getLastD 'x') = some d) :
    objStep st (tok :: entry) =
      (match pyIndex (if (st.uvs.length : Int) ≤ (d : Int) - 1 then st.uvs ++ [[]]
                      else st.uvs).length ((d : Int) - 1) with
       | none => Except.error PErr.indexError
       | some j =>
         Except.ok { st with
                     uvs := (if (st.uvs.length : Int) ≤ (d : Int) - 1 then st.uvs ++ [[]]
                             else st.uvs).set j
                              ((if (st.uvs.length : Int) ≤ (d : Int) - 1 then st.uvs ++ [[]]
                                else st.uvs).getD j [] ++ [entry]) }) := by
  simp only [objStep, if_neg h1, if_neg h2, if_neg h3, if_pos h4, if_pos h5, h6,
             Option.map_some']

/-- Reduction of `objStep` on the unsuffixed `vt` token (channel 0). -/
theorem objStepVtPlainReduce (st : OBJState) (entry : List String) :
    objStep st ("vt" :: entry) =
      (match pyIndex (if (st.uvs.length : Int) ≤ 0 then st.uvs ++ [[]]
                      else st.uvs).length 0 with
       | none => Except.error PErr.indexError
       | some j =>
         Except.ok { st with
                     uvs := (if (st.uvs.length : Int) ≤ 0 then st.uvs ++ [[]]
                             else st.uvs).set j
                              ((if (st.uvs.length : Int) ≤ 0 then st.uvs ++ [[]]
                                else st.uvs).getD j [] ++ [entry]) }) := by
  simp only [objStep, if_neg (by decide : ¬ ("vt" = "mtllib")),
             if_neg (by decide : ¬ ("vt" = "v")), if_neg (by decide : ¬ ("vt" = "vn")),
             if_pos (by decide : "vt".data.isPrefixOf "vt".data = true),
             if_neg (by decide : ¬ (2 < "vt".data.length))]

/-- C9 (amended): a `vt` line whose token carries digit suffix `N` (with
`N ≥ 1`) contributes its payload to channel index `N - 1`, and an
unsuffixed `vt` line to channel 0; but the channel list grows by at most
the one lazily appended slot per line, so the parse of the suffixed line
succeeds exactly when `N - 1` does not exceed the current channel count -
a gap of two or more raises an `IndexError` instead of growing the list
as needed. -/
theorem C9_vt_channels (st : OBJState) (tok : String) (entry : List String) (d : Nat)
    (h1 : tok ≠ "mtllib") (h2 : tok ≠ "v") (h3 : tok ≠ "vn")
    (h4 : "vt".data.isPrefixOf tok.data = true)
    (h5 : 2 < tok.data.length)
    (h6 : charDigit? (tok.data.getLastD 'x') = some d)
    (h7 : 1 ≤ d) :
    (d - 1 ≤ st.uvs.length →
      ∃ st', objStep st (tok :: entry) = .ok st'
        ∧ st'.uvs.length = max st.uvs.length d
        ∧ st'.uvs.getD (d - 1) [] = st.uvs.getD (d - 1) [] ++ [entry]
        ∧ (∀ j, j ≠ d - 1 → st'.uvs.getD j [] = st.uvs.getD j [])
        ∧ st'.verts = st.verts ∧ st'.normals = st.normals
        ∧ st'.meshes = st.meshes ∧ st'.mtlfile = st.mtlfile
        ∧ st'.meshIndex = st.meshIndex)
    ∧ (st.uvs.length < d - 1 → objStep st (tok :: entry) = .error .indexError)
    ∧ (∃ st', objStep st ("vt" :: entry) = .ok st'
        ∧ st'.uvs.length = max st.uvs.length 1
        ∧ st'.uvs.getD 0 [] = st.uvs.getD 0 [] ++ [entry]
        ∧ ∀ j, j ≠ 0 → st'.uvs.getD j [] = st.uvs.getD j []) := by
  rw [objStepVtReduce st tok entry d h1 h2 h3 h4 h5 h6]
  refine ⟨?_, ?_, ?_⟩
  · intro hle
    obtain ⟨hl, hs, ho⟩ := vtChannelApply st.uvs entry (d - 1) hle
    by_cases hg : st.uvs.length ≤ d - 1
    · have hgi : (st.uvs.length : Int) ≤ (d : Int) - 1 := by omega
      have hj : d - 1 = st.uvs.length := by omega
      rw [if_pos hg] at hl hs ho
      rw [if_pos hgi]
      have hpy : pyIndex (st.uvs ++ [[]]).length ((d : Int) - 1) = some (d - 1) := by
        unfold pyIndex
        rw [if_pos (by omega), if_pos (by simp; omega)]
        congr 1
        omega
      rw [hpy]
      refine ⟨_, rfl, ?_, ?_, ?_, rfl, rfl, rfl, rfl, rfl⟩
      · simp only [hl]
        omega
      · simp only [hs]
      · intro j hj2
        simp only [ho j hj2]
    · have hgi : ¬ ((st.uvs.length : Int) ≤ (d : Int) - 1) := by omega
      rw [if_neg hg] at hl hs ho
      rw [if_neg hgi]
      have hpy : pyIndex st.uvs.length ((d : Int) - 1) = some (d - 1) := by
        unfold pyIndex
        rw [if_pos (by omega), if_pos (by omega)]
        congr 1
        omega
      rw [hpy]
      refine ⟨_, rfl, ?_, ?_, ?_, rfl, rfl, rfl, rfl, rfl⟩
      · simp only [hl]
        omega
      · simp only [hs]
      · intro j hj2
        simp only [ho j hj2]
  · intro hlt
    have hgi : (st.uvs.length : Int) ≤ (d : Int) - 1 := by omega
    rw [if_pos hgi]
    have hpy : pyIndex (st.uvs ++ [[]]).length ((d : Int) - 1) = none := by
      unfold pyIndex
      rw [if_pos (by omega), if_neg (by simp; omega)]
    rw [hpy]
  · rw [objStepVtPlainReduce st entry]
    obtain ⟨hl, hs, ho⟩ := vtChannelApply st.uvs entry 0 (Nat.zero_le _)
    by_cases hg : st.uvs.length ≤ 0
    · have hgi : (st.uvs.length : Int) ≤ 0 := by omega
      rw [if_pos hg] at hl hs ho
      rw [if_pos hgi]
      have hpy : pyIndex (st.uvs ++ [[]]).length 0 = some 0 := by
        unfold pyIndex
        rw [if_pos (by omega), if_pos (by simp)]
        rfl
      rw [hpy]
      refine ⟨_, rfl, ?_, ?_, ?_⟩
      · simp only [hl]
      · simp only [hs]
      · intro j hj2
        simp only [ho j hj2]
    · have hgi : ¬ ((st.uvs.length : Int) ≤ 0) := by omega
      rw [if_neg hg] at hl hs ho
      rw [if_neg hgi]
      have hpy : pyIndex st.uvs.length 0 = some 0 := by
        unfold pyIndex
        rw [if_pos (by omega), if_pos (by omega)]
        rfl
      rw [hpy]
      refine ⟨_, rfl, ?_, ?_, ?_⟩
      · simp only [hl]
      · simp only [hs]
      · intro j hj2
        simp only [ho j hj2]

/-- Witness for C9: the token `vt2` writes channel 1 of a state holding
one channel. -/
theorem C9_vt_channels_witness :
    (1 - 1 ≤ c9St.uvs.length →
      ∃ st', objStep c9St ("vt2" :: ["u", "v"]) = .ok st'
        ∧ st'.uvs.length = max c9St.uvs.length 2
        ∧ st'.uvs.getD (2 - 1) [] = c9St.uvs.getD (2 - 1) [] ++ [["u", "v"]]
        ∧ (∀ j, j ≠ 2 - 1 → st'.uvs.getD j [] = c9St.uvs.getD j [])
        ∧ st'.verts = c9St.verts ∧ st'.normals = c9St.normals
        ∧ st'.meshes = c9St.meshes ∧ st'.mtlfile = c9St.mtlfile
        ∧ st'.meshIndex = c9St.meshIndex)
    ∧ (c9St.uvs.length < 2 - 1 → objStep c9St ("vt2" :: ["u", "v"]) = .error .indexError)
    ∧ (∃ st', objStep c9St ("vt" :: ["u", "v"]) = .ok st'
        ∧ st'.uvs.length = max c9St.uvs.length 1
        ∧ st'.uvs.getD 0 [] = c9St.uvs.getD 0 [] ++ [["u", "v"]]
        ∧ ∀ j, j ≠ 0 → st'.uvs.getD j [] = c9St.uvs.getD j []) := by
  have h := C9_vt_channels c9St "vt2" ["u", "v"] 2 (by decide) (by decide) (by decide)
    (by decide) (by decide) (by decide) (by decide)
  exact ⟨fun _ => h.1 (by decide), h.2.1, h.2.2⟩

/-- Everything already in the set stays in it while face indices are
folded in. -/
theorem foldlInsertSupset (l : List Int) (s : Finset Int) (a : Int) (ha : a ∈ s) :
    a ∈ l.foldl (fun s i => insert (i - 1) s) s := by
  induction l generalizing s with
  | nil => simpa using ha
  | cons x t ih => exact ih _ (Finset.mem_insert_of_mem ha)

/-- Every index on the face line lands (0-based) in the folded set. -/
theorem foldlInsertMem (l : List Int) (s : Finset Int) (i : Int) (hi : i ∈ l) :
    (i - 1) ∈ l.foldl (fun s i => insert (i - 1) s) s := by
  induction l generalizing s with
  | nil => simp at hi
  | cons x t ih =>
    rcases List.mem_cons.mp hi with h | h
    · subst h
      exact foldlInsertSupset t _ _ (Finset.mem_insert_self _ _)
    · exact ih _ h

/-- C10 (as claimed): an `f` line whose indices parse to
`i1 :: i2 :: i3 :: tl` appends exactly the triple of the first three
(1-based) indices to the active group's face list, while the group's
referenced-vertex set receives every index on the line converted to
0-based - including the fourth and later ones, which never enter a face
triple; the set can therefore contain vertices that appear in no recorded
face. -/
theorem C10_face_line (st : OBJState) (vs : List String) (fv : List Int)
    (i1 i2 i3 : Int) (tl : List Int) (j : Nat)
    (hfv : vs.mapM (fun v => pyInt? (slashHead v)) = some fv)
    (hshape : fv = i1 :: i2 :: i3 :: tl)
    (hj : pyIndex st.meshes.length st.meshIndex = some j) :
    (objStep st ("f" :: vs)
      = .ok { st with
              meshes := st.meshes.set j
                { (st.meshes.getD j defaultOBJMesh) with
                  faces := (st.meshes.getD j defaultOBJMesh).faces ++ [(i1, i2, i3)],
                  verts := fv.foldl (fun s i => insert (i - 1) s)
                             (st.meshes.getD j defaultOBJMesh).verts } })
    ∧ ∀ i ∈ fv, (i - 1) ∈ fv.foldl (fun s i => insert (i - 1) s)
        (st.meshes.getD j defaultOBJMesh).verts := by
  subst hshape
  refine ⟨?_, fun i hi => foldlInsertMem _ _ i hi⟩
  simp only [objStep, if_neg (show ("f" : String) ≠ "mtllib" by decide),
             if_neg (show ("f" : String) ≠ "v" by decide),
             if_neg (show ("f" : String) ≠ "vn" by decide),
             if_neg (show ¬ ("vt".data.isPrefixOf "f".data = true) by decide),
             if_pos (show ("f" : String) = "f" from rfl), if_true, hfv, hj]

/-- Witness for C10: a quad face line `f 1 2 3 4` in a state with one
active group records the triple `(1, 2, 3)` but adds vertices
`0, 1, 2, 3` to the group's set. -/
theorem C10_face_line_witness :
    (objStep { meshes := [defaultOBJMesh], meshIndex := 0 } ("f" :: ["1", "2", "3", "4"])
      = .ok { meshes := [{ (defaultOBJMesh) with
                           faces := [((1 : Int), (2 : Int), (3 : Int))],
                           verts := ([1, 2, 3, 4] : List Int).foldl
                             (fun s i => insert (i - 1) s) defaultOBJMesh.verts }],
              meshIndex := 0 }
      ∧ ∀ i ∈ ([1, 2, 3, 4] : List Int), (i - 1) ∈ ([1, 2, 3, 4] : List Int).foldl
          (fun s i => insert (i - 1) s) defaultOBJMesh.verts) := by
  have h := C10_face_line { meshes := [defaultOBJMesh], meshIndex := 0 }
    ["1", "2", "3", "4"] [1, 2, 3, 4] 1 2 3 [4] 0 (by decide) (by decide) (by decide)
  exact ⟨by simpa using h.1, h.2⟩

/-! ### Claims C1-C7: the scene assembler -/

/-- C1 counterexample.  In `fsScale`, the first `m2` row imports `m.obj`
with `ScaleFactor` 2 and the second row (empty `ScaleFactor`) resolves by
copying the already-imported object: the copy (oid 3, named `m.obj.001`,
sharing data block 1) keeps the donor's scale `(2, 2, 2)` although the
claim demands that an absent/empty `ScaleFactor` leave the scale at 1 on
every axis. -/
theorem C1_counterexample :
    (importGo fsScale stM2 3 "t/A.obj" none emptyScene).map
        (fun p => (p.2.getByOid 3).map (fun b => (b.name, b.dataId, b.scale)))
      = .ok (some ("m.obj.001", some 1, ((2 : ℚ), (2 : ℚ), (2 : ℚ))))
    ∧ ((2 : ℚ), (2 : ℚ), (2 : ℚ)) ≠ ((1 : ℚ), (1 : ℚ), (1 : ℚ)) := by
  refine ⟨by decide, by decide⟩

/-- C2 counterexample.  Importing tile `A.obj` stores `ModelId` 7 in the
scene property `importedModelIDs`; a later, independent import of tile
`B.obj` on the same scene observes it and skips its own row with id 7, so
`n.obj` is never imported: the registry neither starts empty at the second
top-level call nor is it discarded after the first. -/
theorem C2_counterexample :
    (importGo fsTwoTiles stM2 3 "A.obj" none emptyScene).map
        (fun p => p.2.importedModelIDs) = .ok (some ["7"])
    ∧ ((importGo fsTwoTiles stM2 3 "A.obj" none emptyScene).bind (fun p =>
        importGo fsTwoTiles stM2 3 "B.obj" none p.2)).map (fun p =>
          (p.2.importedModelIDs, p.2.hasName "n.obj",
           p.2.log.contains "Skipping already imported model 7"))
      = .ok (some ["7"], false, true) := by
  refine ⟨by decide, by decide⟩

/-- C6 counterexample.  In `fsMissing` the first placement row references
`missing.obj`, which does not exist: the whole import aborts with the
uncaught file-open error; no root together with an error list is returned
and the resolvable second row (`m.obj`) is never processed. -/
theorem C6_counterexample :
    importGo fsMissing stM2 3 "t/A.obj" none emptyScene
      = .error (.fileNotFound "t/missing.obj") := by
  decide

/-- C7 counterexample.  In `fsDisabled`, the single `m2` row is processed
with `importM2` disabled (the CSV is read because `importWMO` is on): no
object for `m.obj` is created, yet `ModelId` 9 is written to
the imported-model registry: the record was not free of side effects. -/
theorem C7_counterexample :
    (importGo fsDisabled stWMO 2 "A.obj" none emptyScene).map
        (fun p => (p.2.importedModelIDs, p.2.hasName "m.obj"))
      = .ok (some ["9"], false)
    ∧ (some ["9"] : Option (List String)) ≠ (emptyScene.importedModelIDs) := by
  refine ⟨by decide, by decide⟩

/-- Helper: a successful run of the `if`-chain body of an ADT row always
ends by writing `tempModelIDList` to the scene property (line 515). -/
theorem setIDsOfBind (x : Except PErr Scene) (tmp : List String) (sc' : Scene)
    (h : (x >>= fun v => pure (v.setIDs tmp)) = Except.ok sc') :
    sc'.importedModelIDs = some tmp := by
  cases x with
  | error e => simp at h
  | ok v =>
    simp only [exceptBindOk, exceptPureEq, Except.ok.injEq] at h
    subst h
    rfl

theorem bodyWritesIDs (rec : Importer) (fs : FS) (settings : Settings) (baseDir : String)
    (wp dp gp : Option Nat) (row : Row) (tmp : List String) (sc sc' : Scene)
    (h : processADTRow.processADTRowBody rec fs settings baseDir wp dp gp row tmp sc
          = .ok sc') :
    sc'.importedModelIDs = some tmp := by
  unfold processADTRow.processADTRowBody at h
  split at h
  · exact setIDsOfBind _ _ _ h
  · split at h
    · exact setIDsOfBind _ _ _ h
    · split at h
      · exact setIDsOfBind _ _ _ h
      · exact setIDsOfBind _ _ _ h

/-- C2 (amended): the registry is persisted on the scene in the
`importedModelIDs` custom property.  An ADT row reads whatever the scene
property currently holds (it is empty only when the property is absent):
a row whose `ModelId` is already present is skipped - with only a log
entry - when duplicates are disallowed, even if that id was written by an
earlier, independent import call; and every successfully processed row
writes the updated list back to the scene property, where later calls
observe it. -/
theorem C2_registry_persistence (rec : Importer) (fs : FS) (settings : Settings)
    (baseDir : String) (wp dp gp : Option Nat) (sc : Scene) (row : Row) (L : List String)
    (hprop : sc.importedModelIDs = some L) :
    (row.ModelId ∈ L → settings.allowDuplicates = false →
      processADTRow rec fs settings baseDir wp dp gp sc row
        = .ok (sc.addLog ("Skipping already imported model " ++ row.ModelId)))
    ∧ (row.ModelId ∉ L → ∀ sc',
        processADTRow rec fs settings baseDir wp dp gp sc row = .ok sc' →
        sc'.importedModelIDs = some (L ++ [row.ModelId])) := by
  constructor
  · intro hmem hdup
    unfold processADTRow
    rw [hprop]
    simp only [Option.getD_some]
    rw [if_pos hmem, if_neg (by simp [hdup])]
  · intro hmem sc' h
    unfold processADTRow at h
    rw [hprop] at h
    simp only [Option.getD_some] at h
    rw [if_neg hmem] at h
    exact bodyWritesIDs _ _ _ _ _ _ _ _ _ _ _ h

/-- Witness for C2 (amended): a scene whose property holds `["7"]`. -/
theorem C2_registry_persistence_witness :
    (let sc : Scene := { importedModelIDs := some ["7"] }
     let row : Row := { rowType := "m2", ModelId := "7", ModelFile := "m.obj" }
     processADTRow (importGo fsTwoTiles stM2 1) fsTwoTiles stM2 "" none none none sc row
       = .ok (sc.addLog ("Skipping already imported model " ++ row.ModelId))) := by
  have h := C2_registry_persistence (importGo fsTwoTiles stM2 1) fsTwoTiles stM2 ""
    none none none { importedModelIDs := some ["7"] }
    { rowType := "m2", ModelId := "7", ModelFile := "m.obj" } ["7"] (by decide)
  exact h.1 (by decide) (by decide)

/-- C7 (amended): an ADT record whose target category is disabled creates
no object and leaves the object list, the log and every other scene field
unchanged - but its `ModelId` (when new) is still appended to
the imported-model registry before the category check: disabling one
category can change a later dedup decision. -/
theorem C7_disabled_category_registers (rec : Importer) (fs : FS) (settings : Settings)
    (baseDir : String) (wp dp gp : Option Nat) (sc : Scene) (row : Row)
    (hW : row.rowType = "wmo" → settings.importWMO = false)
    (hM : row.rowType = "m2" → settings.importM2 = false)
    (hG : row.rowType = "gobj" → settings.importGOBJ = false)
    (hnew : row.ModelId ∉ sc.importedModelIDs.getD []) :
    processADTRow rec fs settings baseDir wp dp gp sc row
      = .ok (sc.setIDs (sc.importedModelIDs.getD [] ++ [row.ModelId]))
    ∧ (sc.setIDs (sc.importedModelIDs.getD [] ++ [row.ModelId])).objects = sc.objects
    ∧ (sc.setIDs (sc.importedModelIDs.getD [] ++ [row.ModelId])).log = sc.log
    ∧ (sc.setIDs (sc.importedModelIDs.getD [] ++ [row.ModelId])).importedModelIDs
        = some (sc.importedModelIDs.getD [] ++ [row.ModelId]) := by
  refine ⟨?_, rfl, rfl, rfl⟩
  unfold processADTRow
  rw [if_neg hnew]
  unfold processADTRow.processADTRowBody
  rw [if_neg (fun hc => by simp [hW hc.1] at hc), if_neg (fun hc => by simp [hM hc.1] at hc),
      if_neg (fun hc => by simp [hG hc.1] at hc)]
  rfl

/-- Witness for C7 (amended): an `m2` row processed while only `importWMO`
is enabled. -/
theorem C7_disabled_category_registers_witness :
    (let sc : Scene := emptyScene
     let row : Row := { rowType := "m2", ModelId := "9", ModelFile := "m.obj" }
     processADTRow (importGo fsDisabled stWMO 1) fsDisabled stWMO "" none none none sc row
       = .ok (sc.setIDs (sc.importedModelIDs.getD [] ++ [row.ModelId]))) := by
  have h := C7_disabled_category_registers (importGo fsDisabled stWMO 1) fsDisabled stWMO
    "" none none none emptyScene { rowType := "m2", ModelId := "9", ModelFile := "m.obj" }
    (by intro h; exact absurd h (by decide)) (by intro _; rfl)
    (by intro h; exact absurd h (by decide)) (by decide)
  exact h.1

@[simp] theorem Scene.hasName_addLog (sc : Scene) (m n : String) :
    (sc.addLog m).hasName n = sc.hasName n := rfl

@[simp] theorem Scene.findByName_addLog (sc : Scene) (m n : String) :
    (sc.addLog m).findByName n = sc.findByName n := rfl

@[simp] theorem Scene.ids_addLog (sc : Scene) (m : String) :
    (sc.addLog m).importedModelIDs = sc.importedModelIDs := rfl

/-! Projection calculus for the scene operations, used to evaluate runs of
the importer symbolically. -/

@[simp] theorem Scene.objects_addLog (sc : Scene) (m : String) :
    (sc.addLog m).objects = sc.objects := rfl

@[simp] theorem Scene.nextOid_addLog (sc : Scene) (m : String) :
    (sc.addLog m).nextOid = sc.nextOid := rfl

@[simp] theorem Scene.nextDataId_addLog (sc : Scene) (m : String) :
    (sc.addLog m).nextDataId = sc.nextDataId := rfl

@[simp] theorem Scene.objects_setIDs (sc : Scene) (l : List String) :
    (sc.setIDs l).objects = sc.objects := rfl

@[simp] theorem Scene.nextOid_setIDs (sc : Scene) (l : List String) :
    (sc.setIDs l).nextOid = sc.nextOid := rfl

@[simp] theorem Scene.nextDataId_setIDs (sc : Scene) (l : List String) :
    (sc.setIDs l).nextDataId = sc.nextDataId := rfl

@[simp] theorem Scene.ids_setIDs (sc : Scene) (l : List String) :
    (sc.setIDs l).importedModelIDs = some l := rfl

@[simp] theorem Scene.hasName_setIDs (sc : Scene) (l : List String) (n : String) :
    (sc.setIDs l).hasName n = sc.hasName n := rfl

@[simp] theorem Scene.objects_modify (sc : Scene) (i : Nat) (f : BObject → BObject) :
    (sc.modifyObj i f).objects = sc.objects.map (fun b => if b.oid = i then f b else b) := rfl

@[simp] theorem Scene.nextOid_modify (sc : Scene) (i : Nat) (f : BObject → BObject) :
    (sc.modifyObj i f).nextOid = sc.nextOid := rfl

@[simp] theorem Scene.nextDataId_modify (sc : Scene) (i : Nat) (f : BObject → BObject) :
    (sc.modifyObj i f).nextDataId = sc.nextDataId := rfl

@[simp] theorem Scene.ids_modify (sc : Scene) (i : Nat) (f : BObject → BObject) :
    (sc.modifyObj i f).importedModelIDs = sc.importedModelIDs := rfl

@[simp] theorem Scene.newObject_fst (sc : Scene) (base : String) (d : Option Nat) :
    (sc.newObject base d).1 = sc.nextOid := rfl

@[simp] theorem Scene.newObject_objects (sc : Scene) (base : String) (d : Option Nat) :
    (sc.newObject base d).2.objects
      = sc.objects ++ [{ oid := sc.nextOid, name := freshName sc base, dataId := d }] := rfl

@[simp] theorem Scene.newObject_nextOid (sc : Scene) (base : String) (d : Option Nat) :
    (sc.newObject base d).2.nextOid = sc.nextOid + 1 := rfl

@[simp] theorem Scene.newObject_nextDataId (sc : Scene) (base : String) (d : Option Nat) :
    (sc.newObject base d).2.nextDataId = sc.nextDataId := rfl

@[simp] theorem Scene.newObject_ids (sc : Scene) (base : String) (d : Option Nat) :
    (sc.newObject base d).2.importedModelIDs = sc.importedModelIDs := rfl

@[simp] theorem Scene.newObject_log (sc : Scene) (base : String) (d : Option Nat) :
    (sc.newObject base d).2.log = sc.log := rfl

@[simp] theorem Scene.copyObject_fst (sc : Scene) (src : BObject) :
    (sc.copyObject src).1 = sc.nextOid := rfl

@[simp] theorem Scene.copyObject_objects (sc : Scene) (src : BObject) :
    (sc.copyObject src).2.objects
      = sc.objects ++ [{ src with oid := sc.nextOid, name := freshName sc src.name }] := rfl

@[simp] theorem Scene.copyObject_nextOid (sc : Scene) (src : BObject) :
    (sc.copyObject src).2.nextOid = sc.nextOid + 1 := rfl

@[simp] theorem Scene.copyObject_nextDataId (sc : Scene) (src : BObject) :
    (sc.copyObject src).2.nextDataId = sc.nextDataId := rfl

@[simp] theorem Scene.copyObject_ids (sc : Scene) (src : BObject) :
    (sc.copyObject src).2.importedModelIDs = sc.importedModelIDs := rfl

@[simp] theorem Scene.newMeshData_fst (sc : Scene) : sc.newMeshData.1 = sc.nextDataId := rfl

@[simp] theorem Scene.newMeshData_objects (sc : Scene) :
    sc.newMeshData.2.objects = sc.objects := rfl

@[simp] theorem Scene.newMeshData_nextOid (sc : Scene) :
    sc.newMeshData.2.nextOid = sc.nextOid := rfl

@[simp] theorem Scene.newMeshData_nextDataId (sc : Scene) :
    sc.newMeshData.2.nextDataId = sc.nextDataId + 1 := rfl

@[simp] theorem Scene.newMeshData_ids (sc : Scene) :
    sc.newMeshData.2.importedModelIDs = sc.importedModelIDs := rfl

@[simp] theorem Scene.newMeshData_hasName (sc : Scene) (n : String) :
    sc.newMeshData.2.hasName n = sc.hasName n := rfl

theorem Scene.setLoc_eq (sc : Scene) (i : Nat) (v : Vec3) :
    sc.setLoc i v = sc.modifyObj i (fun b => { b with location := v }) := rfl

theorem Scene.setRot_eq (sc : Scene) (i : Nat) (e : Euler) :
    sc.setRot i e = sc.modifyObj i (fun b => { b with rotation := e }) := rfl

theorem Scene.mapRot_eq (sc : Scene) (i : Nat) (f : Euler → Euler) :
    sc.mapRot i f = sc.modifyObj i (fun b => { b with rotation := f b.rotation }) := rfl

theorem Scene.setScale_eq (sc : Scene) (i : Nat) (v : Vec3) :
    sc.setScale i v = sc.modifyObj i (fun b => { b with scale := v }) := rfl

theorem Scene.setParentOf_eq (sc : Scene) (i : Nat) (p : Option Nat) :
    sc.setParentOf i p = sc.modifyObj i (fun b => { b with parentId := p }) := rfl

theorem Scene.setDataOf_eq (sc : Scene) (i : Nat) (d : Option Nat) :
    sc.setDataOf i d = sc.modifyObj i (fun b => { b with dataId := d }) := rfl

/-- Name tests see through oid-targeted mutations: none of the importer's
field updates changes an object's name. -/
theorem Scene.hasName_modify (sc : Scene) (i : Nat) (f : BObject → BObject)
    (hf : ∀ b, (f b).name = b.name) (n : String) :
    (sc.modifyObj i f).hasName n = sc.hasName n := by
  unfold Scene.hasName
  simp only [Scene.objects_modify, List.any_map]
  congr 1
  funext b
  by_cases hb : b.oid = i <;> simp [hb, hf]

@[simp] theorem Scene.hasName_setLoc (sc : Scene) (i : Nat) (v : Vec3) (n : String) :
    (sc.setLoc i v).hasName n = sc.hasName n := by
  rw [Scene.setLoc_eq]
  exact Scene.hasName_modify sc i (fun b => { b with location := v }) (fun _ => rfl) n

@[simp] theorem Scene.hasName_setRot (sc : Scene) (i : Nat) (e : Euler) (n : String) :
    (sc.setRot i e).hasName n = sc.hasName n := by
  rw [Scene.setRot_eq]
  exact Scene.hasName_modify sc i (fun b => { b with rotation := e }) (fun _ => rfl) n

@[simp] theorem Scene.hasName_mapRot (sc : Scene) (i : Nat) (f : Euler → Euler) (n : String) :
    (sc.mapRot i f).hasName n = sc.hasName n := by
  rw [Scene.mapRot_eq]
  exact Scene.hasName_modify sc i (fun b => { b with rotation := f b.rotation }) (fun _ => rfl) n

@[simp] theorem Scene.hasName_setScale (sc : Scene) (i : Nat) (v : Vec3) (n : String) :
    (sc.setScale i v).hasName n = sc.hasName n := by
  rw [Scene.setScale_eq]
  exact Scene.hasName_modify sc i (fun b => { b with scale := v }) (fun _ => rfl) n

@[simp] theorem Scene.hasName_setParentOf (sc : Scene) (i : Nat) (p : Option Nat) (n : String) :
    (sc.setParentOf i p).hasName n = sc.hasName n := by
  rw [Scene.setParentOf_eq]
  exact Scene.hasName_modify sc i (fun b => { b with parentId := p }) (fun _ => rfl) n

@[simp] theorem Scene.hasName_setDataOf (sc : Scene) (i : Nat) (d : Option Nat) (n : String) :
    (sc.setDataOf i d).hasName n = sc.hasName n := by
  rw [Scene.setDataOf_eq]
  exact Scene.hasName_modify sc i (fun b => { b with dataId := d }) (fun _ => rfl) n

@[simp] theorem Scene.ids_setLoc (sc : Scene) (i : Nat) (v : Vec3) :
    (sc.setLoc i v).importedModelIDs = sc.importedModelIDs := rfl

@[simp] theorem Scene.ids_setRot (sc : Scene) (i : Nat) (e : Euler) :
    (sc.setRot i e).importedModelIDs = sc.importedModelIDs := rfl

@[simp] theorem Scene.ids_mapRot (sc : Scene) (i : Nat) (f : Euler → Euler) :
    (sc.mapRot i f).importedModelIDs = sc.importedModelIDs := rfl

@[simp] theorem Scene.ids_setScale (sc : Scene) (i : Nat) (v : Vec3) :
    (sc.setScale i v).importedModelIDs = sc.importedModelIDs := rfl

@[simp] theorem Scene.ids_setParentOf (sc : Scene) (i : Nat) (p : Option Nat) :
    (sc.setParentOf i p).importedModelIDs = sc.importedModelIDs := rfl

@[simp] theorem Scene.ids_setDataOf (sc : Scene) (i : Nat) (d : Option Nat) :
    (sc.setDataOf i d).importedModelIDs = sc.importedModelIDs := rfl

@[simp] theorem Scene.nextOid_setLoc (sc : Scene) (i : Nat) (v : Vec3) :
    (sc.setLoc i v).nextOid = sc.nextOid := rfl

@[simp] theorem Scene.nextOid_setRot (sc : Scene) (i : Nat) (e : Euler) :
    (sc.setRot i e).nextOid = sc.nextOid := rfl

@[simp] theorem Scene.nextOid_mapRot (sc : Scene) (i : Nat) (f : Euler → Euler) :
    (sc.mapRot i f).nextOid = sc.nextOid := rfl

@[simp] theorem Scene.nextOid_setScale (sc : Scene) (i : Nat) (v : Vec3) :
    (sc.setScale i v).nextOid = sc.nextOid := rfl

@[simp] theorem Scene.nextOid_setParentOf (sc : Scene) (i : Nat) (p : Option Nat) :
    (sc.setParentOf i p).nextOid = sc.nextOid := rfl

@[simp] theorem Scene.nextOid_setDataOf (sc : Scene) (i : Nat) (d : Option Nat) :
    (sc.setDataOf i d).nextOid = sc.nextOid := rfl

@[simp] theorem Scene.nextDataId_setLoc (sc : Scene) (i : Nat) (v : Vec3) :
    (sc.setLoc i v).nextDataId = sc.nextDataId := rfl

@[simp] theorem Scene.nextDataId_setRot (sc : Scene) (i : Nat) (e : Euler) :
    (sc.setRot i e).nextDataId = sc.nextDataId := rfl

@[simp] theorem Scene.nextDataId_mapRot (sc : Scene) (i : Nat) (f : Euler → Euler) :
    (sc.mapRot i f).nextDataId = sc.nextDataId := rfl

@[simp] theorem Scene.nextDataId_setScale (sc : Scene) (i : Nat) (v : Vec3) :
    (sc.setScale i v).nextDataId = sc.nextDataId := rfl

@[simp] theorem Scene.nextDataId_setParentOf (sc : Scene) (i : Nat) (p : Option Nat) :
    (sc.setParentOf i p).nextDataId = sc.nextDataId := rfl

@[simp] theorem Scene.nextDataId_setDataOf (sc : Scene) (i : Nat) (d : Option Nat) :
    (sc.setDataOf i d).nextDataId = sc.nextDataId := rfl

theorem freshNameAux_ext (sc1 sc2 : Scene) (b : String)
    (hn : ∀ m, sc1.hasName m = sc2.hasName m) :
    ∀ (fuel k : Nat), freshNameAux sc1 b k fuel = freshNameAux sc2 b k fuel := by
  intro fuel
  induction fuel with
  | zero => intro k; rfl
  | succ fuel ih =>
    intro k
    unfold freshNameAux
    simp only [hn]
    split <;> simp [ih]

theorem freshName_ext (sc1 sc2 : Scene) (b : String)
    (hn : ∀ m, sc1.hasName m = sc2.hasName m)
    (hl : sc1.objects.length = sc2.objects.length) :
    freshName sc1 b = freshName sc2 b := by
  unfold freshName
  rw [hn, hl]
  split <;> simp [freshNameAux_ext sc1 sc2 b hn]

@[simp] theorem freshName_addLog (sc : Scene) (m b : String) :
    freshName (sc.addLog m) b = freshName sc b :=
  freshName_ext _ _ _ (fun _ => rfl) rfl

@[simp] theorem freshName_newMeshData (sc : Scene) (b : String) :
    freshName sc.newMeshData.2 b = freshName sc b :=
  freshName_ext _ _ _ (fun _ => rfl) rfl

@[simp] theorem freshName_setIDs (sc : Scene) (l : List String) (b : String) :
    freshName (sc.setIDs l) b = freshName sc b :=
  freshName_ext _ _ _ (fun _ => rfl) rfl

@[simp] theorem freshName_setLoc (sc : Scene) (i : Nat) (v : Vec3) (b : String) :
    freshName (sc.setLoc i v) b = freshName sc b :=
  freshName_ext _ _ _ (fun m => Scene.hasName_setLoc sc i v m)
    (by rw [Scene.setLoc_eq]; simp)

@[simp] theorem freshName_setRot (sc : Scene) (i : Nat) (e : Euler) (b : String) :
    freshName (sc.setRot i e) b = freshName sc b :=
  freshName_ext _ _ _ (fun m => Scene.hasName_setRot sc i e m)
    (by rw [Scene.setRot_eq]; simp)

@[simp] theorem freshName_mapRot (sc : Scene) (i : Nat) (f : Euler → Euler) (b : String) :
    freshName (sc.mapRot i f) b = freshName sc b :=
  freshName_ext _ _ _ (fun m => Scene.hasName_mapRot sc i f m)
    (by rw [Scene.mapRot_eq]; simp)

@[simp] theorem freshName_setScale (sc : Scene) (i : Nat) (v : Vec3) (b : String) :
    freshName (sc.setScale i v) b = freshName sc b :=
  freshName_ext _ _ _ (fun m => Scene.hasName_setScale sc i v m)
    (by rw [Scene.setScale_eq]; simp)

@[simp] theorem freshName_setParentOf (sc : Scene) (i : Nat) (p : Option Nat) (b : String) :
    freshName (sc.setParentOf i p) b = freshName sc b :=
  freshName_ext _ _ _ (fun m => Scene.hasName_setParentOf sc i p m)
    (by rw [Scene.setParentOf_eq]; simp)

@[simp] theorem freshName_setDataOf (sc : Scene) (i : Nat) (d : Option Nat) (b : String) :
    freshName (sc.setDataOf i d) b = freshName sc b :=
  freshName_ext _ _ _ (fun m => Scene.hasName_setDataOf sc i d m)
    (by rw [Scene.setDataOf_eq]; simp)

@[simp] theorem Scene.hasName_newObject (sc : Scene) (base : String) (d : Option Nat)
    (n : String) :
    (sc.newObject base d).2.hasName n = (sc.hasName n || (freshName sc base == n)) := by
  unfold Scene.hasName
  simp [Scene.newObject]

@[simp] theorem Scene.hasName_copyObject (sc : Scene) (src : BObject) (n : String) :
    (sc.copyObject src).2.hasName n = (sc.hasName n || (freshName sc src.name == n)) := by
  unfold Scene.hasName
  simp [Scene.copyObject]

/-- C6 (amended): when an enabled `m2` row's referenced file does not
resolve, the recursive import raises an uncaught file-open error: the row
processor returns that error (no per-row error collection exists), and the
row loop aborts immediately, leaving every remaining row unprocessed
regardless of what it contains.  The import returns only an object on
success, never a root paired with an error list. -/
theorem C6_unresolved_aborts (fuel : Nat) (fs : FS) (settings : Settings) (baseDir : String)
    (wp dp gp : Option Nat) (sc : Scene) (row : Row) (rest : List Row)
    (hm2 : row.rowType = "m2") (hon : settings.importM2 = true)
    (hskip : row.ModelId ∉ sc.importedModelIDs.getD [])
    (hname : sc.hasName (pyBasename row.ModelFile) = false)
    (hmiss : osJoin baseDir row.ModelFile ∉ fs.files) :
    processADTRow (importGo fs settings (fuel + 1)) fs settings baseDir wp dp gp sc row
      = .error (.fileNotFound (osJoin baseDir row.ModelFile))
    ∧ (row :: rest).foldlM
        (fun s r => processADTRow (importGo fs settings (fuel + 1)) fs settings baseDir
          wp dp gp s r) sc
      = .error (.fileNotFound (osJoin baseDir row.ModelFile)) := by
  have hrec : importGo fs settings (fuel + 1) (osJoin baseDir row.ModelFile) none
      (sc.addLog ("ADT M2 import: " ++ row.ModelFile))
      = .error (.fileNotFound (osJoin baseDir row.ModelFile)) := by
    simp only [importGo]
    rw [if_neg hmiss]
    rfl
  have hb : adtM2Branch (importGo fs settings (fuel + 1)) baseDir dp sc row
      = .error (.fileNotFound (osJoin baseDir row.ModelFile)) := by
    unfold adtM2Branch
    simp only [Scene.hasName_addLog]
    rw [if_pos hname, hrec]
    rfl
  have h1 : processADTRow (importGo fs settings (fuel + 1)) fs settings baseDir wp dp gp sc row
      = .error (.fileNotFound (osJoin baseDir row.ModelFile)) := by
    unfold processADTRow
    rw [if_neg hskip]
    unfold processADTRow.processADTRowBody
    rw [if_neg (fun hc => by rw [hm2] at hc; exact absurd hc.1 (by decide)),
        if_pos ⟨hm2, hon⟩, hb]
    rfl
  refine ⟨h1, ?_⟩
  rw [List.foldlM_cons, h1]
  rfl

/-- Witness for C6 (amended): the concrete `fsMissing` scenario, at the
point where its first row is processed. -/
theorem C6_unresolved_aborts_witness :
    (let row : Row := { rowType := "m2", ModelId := "1", ModelFile := "missing.obj" }
     let rest : List Row := [{ rowType := "m2", ModelId := "2", ModelFile := "m.obj" }]
     processADTRow (importGo fsMissing stM2 2) fsMissing stM2 "t" none (some 1) none
        emptyScene row
       = .error (.fileNotFound "t/missing.obj")
     ∧ (row :: rest).foldlM
        (fun s r => processADTRow (importGo fsMissing stM2 2) fsMissing stM2 "t"
          none (some 1) none s r) emptyScene
       = .error (.fileNotFound "t/missing.obj")) := by
  have h := C6_unresolved_aborts 1 fsMissing stM2 "t" none (some 1) none emptyScene
    { rowType := "m2", ModelId := "1", ModelFile := "missing.obj" }
    [{ rowType := "m2", ModelId := "2", ModelFile := "m.obj" }]
    rfl rfl (by decide) (by decide) (by decide)
  exact ⟨h.1, h.2⟩

/-- A directly cyclic ADT table recurses level after level: because the
registry write (line 515) only happens after the row's recursive import
returns, no level of an unbroken descent ever observes a registered id,
so every amount of fuel is exhausted.  The invariant is that an object
named `A.obj` exists (forcing the re-parse path, since the placement CSV
also exists) and that the scene property is still unset. -/
theorem cyclicAux : ∀ (fuel : Nat) (p : Option Nat) (sc : Scene),
    (sc.hasName "A.obj" = true ∨ sc.objects = []) → sc.importedModelIDs = none →
    importGo fsCyclic stWMO fuel "A.obj" p sc = .error .outOfFuel := by
  intro fuel
  induction fuel with
  | zero => intro p sc _ _; rfl
  | succ fuel ih =>
    intro p sc hA0 hids
    have hmem : ("A.obj" ∈ fsCyclic.files) := by decide
    have hcsv : fsCyclic.lookupTable (pyReplace "A.obj" ".obj" csvSuffix)
        = some ⟨true, [{ rowType := "wmo", ModelId := "1", ModelFile := "A.obj" }]⟩ := by decide
    have hcsv2 : (fsCyclic.lookupTable (osJoin (osDirname "A.obj")
        (pyReplace "A.obj" ".obj" csvSuffix))).isSome = true := by decide
    have hbase : pyBasename "A.obj" = "A.obj" := by decide
    have hjoin : osJoin (osDirname "A.obj") "A.obj" = "A.obj" := by decide
    have hW : stWMO.importWMO = true := rfl
    have hM : stWMO.importM2 = false := rfl
    have hS : stWMO.importWMOSets = false := rfl
    have hG : stWMO.importGOBJ = false := rfl
    have hD : stWMO.allowDuplicates = false := rfl
    rcases hA0 with hA | hobj
    · simp only [importGo, if_pos hmem]
      simp only [hW, hM, hS, hG, hD, hcsv]
      simp [hcsv2, hbase, hjoin, hA, hids, hW, hM, hS, hG, hD, processADTRow,
            processADTRow.processADTRowBody, adtWMOBranch, ih]
    · have h1 : sc.hasName "A.obj" = false := by
        simp [Scene.hasName, hobj]
      have h2 : freshName sc "A.obj" = "A.obj" := by
        unfold freshName
        rw [h1]
        simp
      simp only [importGo, if_pos hmem]
      simp only [hW, hM, hS, hG, hD, hcsv]
      simp [hcsv2, hbase, hjoin, h1, h2, hids, hW, hM, hS, hG, hD, processADTRow,
            processADTRow.processADTRowBody, adtWMOBranch, ih]

/-- C5 counterexample.  The directly cyclic table of `fsCyclic` does not
make the import fail with a `CyclicReferenceError`: it recurses until the
runtime bound (here: the fuel) is exhausted. -/
theorem C5_counterexample :
    importGo fsCyclic stWMO 4 "A.obj" none emptyScene = .error .outOfFuel
    ∧ PErr.outOfFuel ≠ PErr.cyclicReference := by
  exact ⟨cyclicAux 4 none emptyScene (Or.inr rfl) rfl, by decide⟩

/-- The result is not a `CyclicReferenceError`. -/
theorem noCyc_ok (a : α) : NoCyc (Except.ok a : Except PErr α) := by
  simp [NoCyc]

theorem noCyc_error (e : PErr) (h : e ≠ .cyclicReference) :
    NoCyc (Except.error e : Except PErr α) := by
  simp [NoCyc, h]

theorem noCyc_bind (x : Except PErr α) (f : α → Except PErr β)
    (hx : NoCyc x) (hf : ∀ a, NoCyc (f a)) : NoCyc (x >>= f) := by
  cases x with
  | error e =>
    unfold NoCyc at hx ⊢
    rw [exceptBindErr]
    intro hcon
    injection hcon with he
    exact hx (by rw [he])
  | ok a =>
    unfold NoCyc at hf ⊢
    rw [exceptBindOk]
    exact hf a

theorem noCyc_foldlM (f : Scene → Row → Except PErr Scene)
    (hf : ∀ s r, NoCyc (f s r)) : ∀ (l : List Row) (s : Scene), NoCyc (l.foldlM f s) := by
  intro l
  induction l with
  | nil => intro s; exact noCyc_ok s
  | cons r t ih =>
    intro s
    rw [List.foldlM_cons]
    exact noCyc_bind _ _ (hf s r) (fun a => ih a)

theorem adtWMOBranch_noCyc (rec : Importer) (fs : FS) (baseDir : String)
    (wp : Option Nat) (sc : Scene) (row : Row)
    (Hrec : ∀ f gp sc, NoCyc (rec f gp sc)) :
    NoCyc (adtWMOBranch rec fs baseDir wp sc row) := by
  unfold adtWMOBranch
  simp only [Scene.newObject, Scene.copyObject, Scene.newMeshData]
  split
  · exact noCyc_bind _ _ (Hrec _ _ _) (fun a => by rcases a with ⟨i, s⟩; exact noCyc_ok _)
  · split
    · exact noCyc_bind _ _ (Hrec _ _ _) (fun a => by rcases a with ⟨i, s⟩; exact noCyc_ok _)
    · split
      · exact noCyc_bind _ _ (noCyc_error _ (by decide))
          (fun a => by rcases a with ⟨i, s⟩; exact noCyc_ok _)
      · first
          | exact noCyc_ok _
          | exact noCyc_bind _ _ (noCyc_ok _)
              (fun a => by rcases a with ⟨i, s⟩; exact noCyc_ok _)

theorem adtM2Branch_noCyc (rec : Importer) (baseDir : String)
    (dp : Option Nat) (sc : Scene) (row : Row)
    (Hrec : ∀ f gp sc, NoCyc (rec f gp sc)) :
    NoCyc (adtM2Branch rec baseDir dp sc row) := by
  unfold adtM2Branch
  simp only [Scene.newObject, Scene.copyObject, Scene.newMeshData]
  split
  · exact noCyc_bind _ _ (Hrec _ _ _) (fun a => by rcases a with ⟨i, s⟩; exact noCyc_ok _)
  · split
    · exact noCyc_bind _ _ (noCyc_error _ (by decide))
        (fun a => by rcases a with ⟨i, s⟩; exact noCyc_ok _)
    · first
        | exact noCyc_ok _
        | exact noCyc_bind _ _ (noCyc_ok _)
            (fun a => by rcases a with ⟨i, s⟩; exact noCyc_ok _)

theorem adtGOBJBranch_noCyc (rec : Importer) (baseDir : String)
    (gp : Option Nat) (sc : Scene) (row : Row)
    (Hrec : ∀ f gp sc, NoCyc (rec f gp sc)) :
    NoCyc (adtGOBJBranch rec baseDir gp sc row) := by
  unfold adtGOBJBranch
  simp only [Scene.newObject, Scene.copyObject, Scene.newMeshData]
  split
  · exact noCyc_bind _ _ (Hrec _ _ _) (fun a => by rcases a with ⟨i, s⟩; exact noCyc_ok _)
  · split
    · exact noCyc_bind _ _ (noCyc_error _ (by decide))
        (fun a => by rcases a with ⟨i, s⟩; exact noCyc_ok _)
    · first
        | exact noCyc_ok _
        | exact noCyc_bind _ _ (noCyc_ok _)
            (fun a => by rcases a with ⟨i, s⟩; exact noCyc_ok _)

theorem processADTRowBody_noCyc (rec : Importer) (fs : FS) (settings : Settings)
    (baseDir : String) (wp dp gp : Option Nat) (row : Row) (tmp : List String)
    (sc : Scene) (Hrec : ∀ f gp sc, NoCyc (rec f gp sc)) :
    NoCyc (processADTRow.processADTRowBody rec fs settings baseDir wp dp gp row tmp sc) := by
  unfold processADTRow.processADTRowBody
  split
  · exact noCyc_bind _ _ (adtWMOBranch_noCyc _ _ _ _ _ _ Hrec) (fun a => noCyc_ok _)
  · split
    · exact noCyc_bind _ _ (adtM2Branch_noCyc _ _ _ _ _ Hrec) (fun a => noCyc_ok _)
    · split
      · exact noCyc_bind _ _ (adtGOBJBranch_noCyc _ _ _ _ _ Hrec) (fun a => noCyc_ok _)
      · exact noCyc_bind _ _ (noCyc_ok _) (fun a => noCyc_ok _)

/-- Zeta-expanded form of `processADTRow`, convenient for case splits. -/
theorem processADTRow_eq (rec : Importer) (fs : FS) (settings : Settings)
    (baseDir : String) (wp dp gp : Option Nat) (sc : Scene) (row : Row) :
    processADTRow rec fs settings baseDir wp dp gp sc row =
      (if row.ModelId ∈ sc.importedModelIDs.getD [] then
        if settings.allowDuplicates then
          processADTRow.processADTRowBody rec fs settings baseDir wp dp gp row
            (sc.importedModelIDs.getD []) sc
        else
          .ok (sc.addLog ("Skipping already imported model " ++ row.ModelId))
      else
        processADTRow.processADTRowBody rec fs settings baseDir wp dp gp row
          (sc.importedModelIDs.getD [] ++ [row.ModelId]) sc) := rfl

theorem processADTRow_noCyc (rec : Importer) (fs : FS) (settings : Settings)
    (baseDir : String) (wp dp gp : Option Nat) (sc : Scene) (row : Row)
    (Hrec : ∀ f gp sc, NoCyc (rec f gp sc)) :
    NoCyc (processADTRow rec fs settings baseDir wp dp gp sc row) := by
  rw [processADTRow_eq]
  split
  · split
    · exact processADTRowBody_noCyc _ _ _ _ _ _ _ _ _ _ Hrec
    · exact noCyc_ok _
  · exact processADTRowBody_noCyc _ _ _ _ _ _ _ _ _ _ Hrec

theorem processWMORow_noCyc (rec : Importer) (settings : Settings)
    (baseDir : String) (gvn : Option Nat) (objId : Nat) (sc : Scene) (row : Row)
    (Hrec : ∀ f gp sc, NoCyc (rec f gp sc)) :
    NoCyc (processWMORow rec settings baseDir gvn objId sc row) := by
  unfold processWMORow
  split
  · exact noCyc_ok _
  · simp only [Scene.newObject, Scene.copyObject, Scene.newMeshData]
    split
    · exact noCyc_bind _ _ (Hrec _ _ _) (fun a => by rcases a with ⟨i, s⟩; exact noCyc_ok _)
    · split
      · exact noCyc_bind _ _ (noCyc_error _ (by decide))
          (fun a => by rcases a with ⟨i, s⟩; exact noCyc_ok _)
      · first
          | exact noCyc_ok _
          | exact noCyc_bind _ _ (noCyc_ok _)
              (fun a => by rcases a with ⟨i, s⟩; exact noCyc_ok _)

theorem importGo_noCyc (fs : FS) (settings : Settings) :
    ∀ (fuel : Nat) (f : String) (gp : Option Nat) (sc : Scene),
      NoCyc (importGo fs settings fuel f gp sc) := by
  intro fuel
  induction fuel with
  | zero => intro f gp sc; exact noCyc_error _ (by decide)
  | succ fuel ih =>
    intro f gp sc
    simp only [importGo]
    split
    · split
      · exact noCyc_ok _
      · split
        · apply noCyc_bind
          · exact noCyc_foldlM _ (fun s r => processADTRow_noCyc _ _ _ _ _ _ _ _ _ ih) _ _
          · intro a
            exact noCyc_ok _
        · apply noCyc_bind
          · exact noCyc_foldlM _ (fun s r => processWMORow_noCyc _ _ _ _ _ _ _ ih) _ _
          · intro a
            exact noCyc_ok _
    · exact noCyc_error _ (by simp)

/-! ### Machinery for symbolic evaluation of single rows (C1, C3, C4) -/

/-- Mutating the just-appended object leaves the existing objects alone. -/
theorem mapModifyAppend (l : List BObject) (b : BObject) (i : Nat) (f : BObject → BObject)
    (hi : b.oid = i) (h : ∀ x ∈ l, x.oid ≠ i) :
    (l ++ [b]).map (fun x => if x.oid = i then f x else x) = l ++ [f b] := by
  rw [List.map_append]
  have h1 : l.map (fun x => if x.oid = i then f x else x) = l := by
    have := List.map_congr_left (f := fun x => if x.oid = i then f x else x) (g := id)
      (fun x hx => if_neg (h x hx))
    rw [this]
    exact List.map_id l
  rw [h1]
  simp [hi]

theorem findOidNone (l : List BObject) (i : Nat) (h : ∀ x ∈ l, x.oid ≠ i) :
    l.find? (fun b => b.oid == i) = none := by
  induction l with
  | nil => rfl
  | cons x t ih =>
    have hx : (x.oid == i) = false := by
      simp [h x (List.mem_cons_self x t)]
    simp only [List.find?, hx]
    exact ih (fun y hy => h y (List.mem_cons_of_mem x hy))

theorem findAppendOfNone (p : BObject → Bool) (l1 l2 : List BObject)
    (h : l1.find? p = none) : (l1 ++ l2).find? p = l2.find? p := by
  induction l1 with
  | nil => rfl
  | cons x t ih =>
    cases hx : p x with
    | true => simp [List.find?, hx] at h
    | false =>
      simp only [List.find?, hx] at h
      simp only [List.cons_append, List.find?, hx]
      exact ih h

/-- A map whose function fixes every element of a list leaves the list
unchanged. -/
theorem mapIdOn {α : Type} (l : List α) (f : α → α) (h : ∀ x ∈ l, f x = x) :
    l.map f = l := by
  induction l with
  | nil => rfl
  | cons a t ih =>
    simp only [List.map_cons]
    rw [h a (List.mem_cons_self a t), ih (fun x hx => h x (List.mem_cons_of_mem a hx))]

/-- Resolution of an `m2` row by a fresh recursive import (the referenced
base name is not yet in the scene, the file exists, and no placement CSV
sits next to it, so the recursion creates exactly the one root object).
The new object carries the transform of lines 488-497 computed from the
row, a fresh data block, and Blender's default unit scale unless
`ScaleFactor` is set. -/
theorem adtM2BranchFresh (fuel : Nat) (fs : FS) (settings : Settings) (baseDir : String)
    (dp : Option Nat) (sc : Scene) (row : Row)
    (hwf : ∀ b ∈ sc.objects, b.oid < sc.nextOid)
    (hname : sc.hasName (pyBasename row.ModelFile) = false)
    (hfile : osJoin baseDir row.ModelFile ∈ fs.files)
    (hnocsv : fs.lookupTable (pyReplace (osJoin baseDir row.ModelFile) ".obj" csvSuffix) = none) :
    ∃ sc', adtM2Branch (importGo fs settings (fuel + 1)) baseDir dp sc row = .ok sc'
      ∧ sc'.objects = sc.objects ++
          [{ oid := sc.nextOid,
             name := freshName sc (pyBasename (osJoin baseDir row.ModelFile)),
             dataId := some sc.nextDataId,
             parentId := dp,
             location := (max_size - row.PositionX, -(max_size - row.PositionZ), row.PositionY),
             rotation := ⟨.deg (90 + row.RotationZ), .deg row.RotationX,
                          .deg (90 + row.RotationY)⟩,
             scale := (match row.ScaleFactor with
                       | some s => (s, s, s)
                       | none => (1, 1, 1)) }]
      ∧ sc'.nextOid = sc.nextOid + 1
      ∧ sc'.nextDataId = sc.nextDataId + 1
      ∧ sc'.importedModelIDs = sc.importedModelIDs := by
  have hne : ∀ x ∈ sc.objects, x.oid ≠ sc.nextOid := fun x hx => Nat.ne_of_lt (hwf x hx)
  unfold adtM2Branch
  simp only [Scene.hasName_addLog]
  rw [if_pos hname]
  simp only [importGo, if_pos hfile]
  simp only [hnocsv]
  cases hsf : row.ScaleFactor with
  | none =>
    refine ⟨_, by simp [hsf]; rfl, ?_, ?_, ?_, ?_⟩
    · simp [Scene.setLoc_eq, Scene.setRot_eq, Scene.mapRot_eq, Scene.setParentOf_eq,
            Scene.setScale_eq, Scene.newObject, Angle.addDeg, hsf]
      try simp only [List.map_append]
      congr 1
      · exact mapIdOn _ _ (fun x hx => by simp [hne x hx])
      · simp [Angle.addDeg, euler0]
    · simp [Scene.setLoc_eq, Scene.setRot_eq, Scene.mapRot_eq, Scene.setParentOf_eq,
            Scene.setScale_eq, Scene.newObject]
    · simp [Scene.setLoc_eq, Scene.setRot_eq, Scene.mapRot_eq, Scene.setParentOf_eq,
            Scene.setScale_eq, Scene.newObject]
    · simp [Scene.setLoc_eq, Scene.setRot_eq, Scene.mapRot_eq, Scene.setParentOf_eq,
            Scene.setScale_eq, Scene.newObject]
  | some sf =>
    refine ⟨_, by simp [hsf]; rfl, ?_, ?_, ?_, ?_⟩
    · simp [Scene.setLoc_eq, Scene.setRot_eq, Scene.mapRot_eq, Scene.setParentOf_eq,
            Scene.setScale_eq, Scene.newObject, Angle.addDeg, hsf]
      try simp only [List.map_append]
      congr 1
      · exact mapIdOn _ _ (fun x hx => by simp [hne x hx])
      · simp [Angle.addDeg, euler0]
    · simp [Scene.setLoc_eq, Scene.setRot_eq, Scene.mapRot_eq, Scene.setParentOf_eq,
            Scene.setScale_eq, Scene.newObject]
    · simp [Scene.setLoc_eq, Scene.setRot_eq, Scene.mapRot_eq, Scene.setParentOf_eq,
            Scene.setScale_eq, Scene.newObject]
    · simp [Scene.setLoc_eq, Scene.setRot_eq, Scene.mapRot_eq, Scene.setParentOf_eq,
            Scene.setScale_eq, Scene.newObject]

/-- Resolution of an `m2` row by the copy path (the referenced base name is
already present): `originalObject.copy()` shares the donor's data block,
the row transform of lines 488-495 is applied, and with no `ScaleFactor`
the copy keeps the donor's scale (lines 496-497 touch scale only when the
field is nonempty). -/
theorem adtM2BranchCopy (rec : Importer) (baseDir : String) (dp : Option Nat)
    (sc : Scene) (row : Row) (orig : BObject)
    (hwf : ∀ b ∈ sc.objects, b.oid < sc.nextOid)
    (hname : sc.hasName (pyBasename row.ModelFile) = true)
    (hfind : sc.findByName (pyBasename row.ModelFile) = some orig) :
    ∃ sc', adtM2Branch rec baseDir dp sc row = .ok sc'
      ∧ sc'.objects = sc.objects ++
          [{ oid := sc.nextOid, name := freshName sc orig.name, dataId := orig.dataId,
             parentId := dp,
             location := (max_size - row.PositionX, -(max_size - row.PositionZ), row.PositionY),
             rotation := ⟨.deg (90 + row.RotationZ), .deg row.RotationX,
                          .deg (90 + row.RotationY)⟩,
             scale := (match row.ScaleFactor with
                       | some s => (s, s, s)
                       | none => orig.scale) }]
      ∧ sc'.nextOid = sc.nextOid + 1
      ∧ sc'.nextDataId = sc.nextDataId
      ∧ sc'.importedModelIDs = sc.importedModelIDs := by
  have hne : ∀ x ∈ sc.objects, x.oid ≠ sc.nextOid := fun x hx => Nat.ne_of_lt (hwf x hx)
  unfold adtM2Branch
  simp only [Scene.hasName_addLog]
  rw [if_neg (by simp [hname]), Scene.findByName_addLog, hfind]
  cases hsf : row.ScaleFactor with
  | none =>
    refine ⟨_, by simp [hsf]; rfl, ?_, ?_, ?_, ?_⟩
    · simp [Scene.setLoc_eq, Scene.setRot_eq, Scene.mapRot_eq, Scene.setParentOf_eq,
            Scene.setScale_eq, Scene.copyObject, Angle.addDeg, hsf]
      try simp only [List.map_append]
      congr 1
      · exact mapIdOn _ _ (fun x hx => by simp [hne x hx])
      · simp [Angle.addDeg, euler0]
    · simp [Scene.setLoc_eq, Scene.setRot_eq, Scene.mapRot_eq, Scene.setParentOf_eq,
            Scene.setScale_eq, Scene.copyObject]
    · simp [Scene.setLoc_eq, Scene.setRot_eq, Scene.mapRot_eq, Scene.setParentOf_eq,
            Scene.setScale_eq, Scene.copyObject]
    · simp [Scene.setLoc_eq, Scene.setRot_eq, Scene.mapRot_eq, Scene.setParentOf_eq,
            Scene.setScale_eq, Scene.copyObject]
  | some sf =>
    refine ⟨_, by simp [hsf]; rfl, ?_, ?_, ?_, ?_⟩
    · simp [Scene.setLoc_eq, Scene.setRot_eq, Scene.mapRot_eq, Scene.setParentOf_eq,
            Scene.setScale_eq, Scene.copyObject, Angle.addDeg, hsf]
      try simp only [List.map_append]
      congr 1
      · exact mapIdOn _ _ (fun x hx => by simp [hne x hx])
      · simp [Angle.addDeg, euler0]
    · simp [Scene.setLoc_eq, Scene.setRot_eq, Scene.mapRot_eq, Scene.setParentOf_eq,
            Scene.setScale_eq, Scene.copyObject]
    · simp [Scene.setLoc_eq, Scene.setRot_eq, Scene.mapRot_eq, Scene.setParentOf_eq,
            Scene.setScale_eq, Scene.copyObject]
    · simp [Scene.setLoc_eq, Scene.setRot_eq, Scene.mapRot_eq, Scene.setParentOf_eq,
            Scene.setScale_eq, Scene.copyObject]

/-- A map is determined by the pointwise behaviour of its function on the
list's elements. -/
theorem mapCongrOn {α β : Type} (l : List α) (f g : α → β) (h : ∀ x ∈ l, f x = g x) :
    l.map f = l.map g := by
  induction l with
  | nil => rfl
  | cons a t ih =>
    simp only [List.map_cons]
    rw [h a (List.mem_cons_self a t), ih (fun x hx => h x (List.mem_cons_of_mem a hx))]

set_option maxHeartbeats 800000 in
/-- Resolution of a `wmo` row whose base name is already in the scene but
whose referenced file has a placement CSV next to it (the
"don't copy WMOs with doodads" test, lines 461-466): the branch re-enters
the importer instead of copying, so the created object receives a freshly
allocated data block instead of sharing an existing one.  The inner
placement table is taken WMO-style and empty so that the recursion's own
row loop is a no-op.  The conclusion lists the per-object data block,
parent, and transform columns of the resulting scene. -/
theorem adtWMOBranchReparse (fuel : Nat) (fs : FS) (settings : Settings) (baseDir : String)
    (wp : Option Nat) (sc : Scene) (row : Row)
    (hwf : ∀ b ∈ sc.objects, b.oid < sc.nextOid)
    (hwmo : settings.importWMO = true)
    (hname : sc.hasName (pyBasename row.ModelFile) = true)
    (hfile : osJoin baseDir row.ModelFile ∈ fs.files)
    (hcsv1 : (fs.lookupTable
        (osJoin baseDir (pyReplace row.ModelFile ".obj" csvSuffix))).isSome = true)
    (hcsv2 : fs.lookupTable (pyReplace (osJoin baseDir row.ModelFile) ".obj" csvSuffix)
        = some ⟨false, []⟩) :
    ∃ sc',
      adtWMOBranch (importGo fs settings (fuel + 1)) fs baseDir wp sc row = .ok sc'
      ∧ sc'.objects.map BObject.dataId
          = sc.objects.map BObject.dataId ++ [none, some sc.nextDataId]
      ∧ sc'.objects.map BObject.parentId
          = sc.objects.map BObject.parentId ++ [wp, some sc.nextOid]
      ∧ sc'.objects.map BObject.location
          = sc.objects.map BObject.location
            ++ [(max_size - row.PositionX, -(max_size - row.PositionZ), row.PositionY),
                (0, 0, 0)]
      ∧ sc'.objects.map BObject.rotation
          = sc.objects.map BObject.rotation
            ++ [⟨.deg row.RotationZ, .deg row.RotationX, .deg (90 + row.RotationY)⟩,
                ⟨.deg 90, .deg 0, .deg 0⟩]
      ∧ sc'.objects.map BObject.scale
          = sc.objects.map BObject.scale
            ++ [(match row.ScaleFactor with
                 | some s => (s, s, s)
                 | none => (1, 1, 1)),
                (1, 1, 1)]
      ∧ sc'.nextOid = sc.nextOid + 2
      ∧ sc'.nextDataId = sc.nextDataId + 1
      ∧ sc'.importedModelIDs = sc.importedModelIDs := by
  have hne : ∀ x ∈ sc.objects, x.oid ≠ sc.nextOid := fun x hx => Nat.ne_of_lt (hwf x hx)
  have hne1 : ∀ x ∈ sc.objects, x.oid ≠ sc.nextOid + 1 :=
    fun x hx => Nat.ne_of_lt (Nat.lt_succ_of_lt (hwf x hx))
  unfold adtWMOBranch
  cases hsf : row.ScaleFactor with
  | none =>
    simp only [hsf]
    simp only [Scene.hasName_addLog, Scene.hasName_newObject, Scene.hasName_setLoc,
      Scene.hasName_setRot, Scene.hasName_mapRot, Scene.hasName_setScale,
      Scene.hasName_setParentOf, hname, Bool.true_or, Bool.true_eq_false, if_false]
    try simp only [reduceIte]
    rw [if_pos hcsv1]
    simp only [Scene.newObject_fst, Scene.nextOid_addLog]
    simp only [importGo, if_pos hfile, hwmo, Bool.true_or]
    try simp only [reduceIte]
    simp only [hcsv2]
    simp only [List.foldlM, exceptBindOk, exceptPureEq]
    refine ⟨_, rfl, ?_, ?_, ?_, ?_, ?_, ?_, ?_, ?_⟩ <;>
      simp only [Scene.setParentOf_eq, Scene.setLoc_eq, Scene.setRot_eq, Scene.mapRot_eq,
        Scene.setScale_eq, Scene.objects_modify, Scene.objects_addLog,
        Scene.newObject_objects, Scene.newObject_fst, Scene.newObject_nextOid,
        Scene.newObject_nextDataId, Scene.newObject_ids, Scene.newMeshData_objects,
        Scene.newMeshData_nextOid, Scene.newMeshData_nextDataId, Scene.newMeshData_fst,
        Scene.newMeshData_ids, Scene.nextOid_addLog, Scene.nextDataId_addLog,
        Scene.ids_addLog, Scene.nextOid_modify, Scene.nextDataId_modify, Scene.ids_modify,
        List.map_append, List.map_cons, List.map_nil, List.map_map, List.append_assoc,
        List.cons_append, List.nil_append, List.singleton_append, freshName_addLog,
        freshName_newMeshData, euler0, Angle.addDeg, eq_self_iff_true, if_true, if_false,
        self_eq_add_right, one_ne_zero, zero_add, Function.comp_apply] <;>
      (try omega) <;>
      exact congrArg₂ (fun a b => a ++ b)
        (mapCongrOn _ _ _ (fun x hx => by simp [hne x hx, hne1 x hx])) rfl
  | some sf =>
    simp only [hsf]
    simp only [Scene.hasName_addLog, Scene.hasName_newObject, Scene.hasName_setLoc,
      Scene.hasName_setRot, Scene.hasName_mapRot, Scene.hasName_setScale,
      Scene.hasName_setParentOf, hname, Bool.true_or, Bool.true_eq_false, if_false]
    try simp only [reduceIte]
    rw [if_pos hcsv1]
    simp only [Scene.newObject_fst, Scene.nextOid_addLog]
    simp only [importGo, if_pos hfile, hwmo, Bool.true_or]
    try simp only [reduceIte]
    simp only [hcsv2]
    simp only [List.foldlM, exceptBindOk, exceptPureEq]
    refine ⟨_, rfl, ?_, ?_, ?_, ?_, ?_, ?_, ?_, ?_⟩ <;>
      simp only [Scene.setParentOf_eq, Scene.setLoc_eq, Scene.setRot_eq, Scene.mapRot_eq,
        Scene.setScale_eq, Scene.objects_modify, Scene.objects_addLog,
        Scene.newObject_objects, Scene.newObject_fst, Scene.newObject_nextOid,
        Scene.newObject_nextDataId, Scene.newObject_ids, Scene.newMeshData_objects,
        Scene.newMeshData_nextOid, Scene.newMeshData_nextDataId, Scene.newMeshData_fst,
        Scene.newMeshData_ids, Scene.nextOid_addLog, Scene.nextDataId_addLog,
        Scene.ids_addLog, Scene.nextOid_modify, Scene.nextDataId_modify, Scene.ids_modify,
        List.map_append, List.map_cons, List.map_nil, List.map_map, List.append_assoc,
        List.cons_append, List.nil_append, List.singleton_append, freshName_addLog,
        freshName_newMeshData, euler0, Angle.addDeg, eq_self_iff_true, if_true, if_false,
        self_eq_add_right, one_ne_zero, zero_add, Function.comp_apply] <;>
      (try omega) <;>
      exact congrArg₂ (fun a b => a ++ b)
        (mapCongrOn _ _ _ (fun x hx => by simp [hne x hx, hne1 x hx])) rfl

/-- C3: over any ADT-style placement table holding two rows with the same
ModelId, processed from a scene whose imported-model registry is empty
(the `importedModelIDs` property is absent), once the first row has been
processed the second row is resolved by the dedup test of lines 436-441:
with `allowDuplicates` false the whole two-row loop returns successfully
with only a skip log line appended for the second row (its category branch
never runs, so exactly one of the two records is imported and the skip is
not an error), and with `allowDuplicates` true the loop instead runs the
second row's import body, so both records are imported. -/
theorem C3_dedup (rec : Importer) (fs : FS) (settings : Settings) (baseDir : String)
    (wp dp gp : Option Nat) (sc : Scene) (r1 r2 : Row)
    (hid : r2.ModelId = r1.ModelId)
    (hids : sc.importedModelIDs = none) (sc1 : Scene)
    (h1 : processADTRow rec fs settings baseDir wp dp gp sc r1 = .ok sc1) :
    (settings.allowDuplicates = false →
      List.foldlM (processADTRow rec fs settings baseDir wp dp gp) sc [r1, r2]
        = .ok (sc1.addLog ("Skipping already imported model " ++ r2.ModelId))) ∧
    (settings.allowDuplicates = true →
      List.foldlM (processADTRow rec fs settings baseDir wp dp gp) sc [r1, r2]
        = processADTRow.processADTRowBody rec fs settings baseDir wp dp gp r2
            [r1.ModelId] sc1) := by
  have h1' : processADTRow.processADTRowBody rec fs settings baseDir wp dp gp r1
      [r1.ModelId] sc = .ok sc1 := by
    unfold processADTRow at h1
    rw [hids] at h1
    simpa using h1
  have hids1 : sc1.importedModelIDs = some [r1.ModelId] :=
    bodyWritesIDs _ _ _ _ _ _ _ _ _ _ _ h1'
  constructor
  · intro hdup
    simp only [List.foldlM, h1, exceptBindOk]
    unfold processADTRow
    rw [hids1]
    simp [hid, hdup]
  · intro hdup
    simp only [List.foldlM, h1, exceptBindOk]
    unfold processADTRow
    rw [hids1]
    simp [hid, hdup]
    exact bind_pure _

/-- C3 witness: a concrete two-row table with the same ModelId "42",
processed with every category (and `allowDuplicates`) disabled from the
empty scene: the first row registers the id, the second is skipped with
the log line and no error. -/
theorem C3_dedup_witness :
    List.foldlM (processADTRow recStub {} {} "" none none none) emptyScene
        [dedupRow, dedupRow]
      = .ok ((emptyScene.setIDs ["42"]).addLog
          ("Skipping already imported model " ++ "42")) :=
  (C3_dedup recStub {} {} "" none none none emptyScene dedupRow dedupRow rfl rfl
      (emptyScene.setIDs ["42"]) rfl).1 rfl

/-- C4: (a) an ADT `m2` row whose referenced file's base name is already
in the scene resolves through `originalObject.copy()` (lines 479-486): the
produced object carries the donor's data block identity (`dataId :=
orig.dataId`, the identical underlying mesh) while its parent, location,
rotation and scale are its own, computed from the row (lines 488-497);
(b) a `wmo` row whose referenced base name is already imported but whose
file has a placement CSV next to it is re-parsed by a fresh
recursive re-import (lines 461-466): the created object's data block is the freshly
allocated `sc.nextDataId`, shared with no pre-existing object. -/
theorem C4_instancing :
    (∀ (rec : Importer) (baseDir : String) (dp : Option Nat) (sc : Scene) (row : Row)
        (orig : BObject),
      (∀ b ∈ sc.objects, b.oid < sc.nextOid) →
      sc.hasName (pyBasename row.ModelFile) = true →
      sc.findByName (pyBasename row.ModelFile) = some orig →
      ∃ sc', adtM2Branch rec baseDir dp sc row = .ok sc'
        ∧ sc'.objects = sc.objects ++
            [{ oid := sc.nextOid, name := freshName sc orig.name, dataId := orig.dataId,
               parentId := dp,
               location := (max_size - row.PositionX, -(max_size - row.PositionZ),
                            row.PositionY),
               rotation := ⟨.deg (90 + row.RotationZ), .deg row.RotationX,
                            .deg (90 + row.RotationY)⟩,
               scale := (match row.ScaleFactor with
                         | some s => (s, s, s)
                         | none => orig.scale) }]) ∧
    (∀ (fuel : Nat) (fs : FS) (settings : Settings) (baseDir : String) (wp : Option Nat)
        (sc : Scene) (row : Row),
      (∀ b ∈ sc.objects, b.oid < sc.nextOid) →
      (∀ b ∈ sc.objects, ∀ d, b.dataId = some d → d < sc.nextDataId) →
      settings.importWMO = true →
      sc.hasName (pyBasename row.ModelFile) = true →
      osJoin baseDir row.ModelFile ∈ fs.files →
      (fs.lookupTable (osJoin baseDir (pyReplace row.ModelFile ".obj" csvSuffix))).isSome
        = true →
      fs.lookupTable (pyReplace (osJoin baseDir row.ModelFile) ".obj" csvSuffix)
        = some ⟨false, []⟩ →
      ∃ sc', adtWMOBranch (importGo fs settings (fuel + 1)) fs baseDir wp sc row = .ok sc'
        ∧ sc'.objects.map BObject.dataId
            = sc.objects.map BObject.dataId ++ [none, some sc.nextDataId]
        ∧ ∀ b ∈ sc.objects, b.dataId ≠ some sc.nextDataId) := by
  constructor
  · intro rec baseDir dp sc row orig hwf hname hfind
    obtain ⟨sc', heq, hobj, _, _, _⟩ := adtM2BranchCopy rec baseDir dp sc row orig hwf hname hfind
    exact ⟨sc', heq, hobj⟩
  · intro fuel fs settings baseDir wp sc row hwf hdwf hwmo hname hfile hcsv1 hcsv2
    obtain ⟨sc', heq, hdata, _⟩ :=
      adtWMOBranchReparse fuel fs settings baseDir wp sc row hwf hwmo hname hfile hcsv1 hcsv2
    refine ⟨sc', heq, hdata, ?_⟩
    intro b hb hcon
    exact absurd (hdwf b hb sc.nextDataId hcon) (lt_irrefl _)

/-- C4 witness: a scene holding `w.obj` (data block 0); the `m2` branch on
a row referencing `w.obj` copies it sharing data block 0 with its own
transform, and with the file carrying its own placement CSV the `wmo`
branch on the same row re-parses it into fresh data block 1, shared with
no existing object. -/
theorem C4_instancing_witness :
    (∃ sc', adtM2Branch recStub "" none c4Scene c4Row = .ok sc'
       ∧ sc'.objects = c4Scene.objects ++
           [{ oid := c4Scene.nextOid,
              name := freshName c4Scene ({ oid := 0, name := "w.obj",
                                           dataId := some 0 } : BObject).name,
              dataId := ({ oid := 0, name := "w.obj",
                           dataId := some 0 } : BObject).dataId,
              parentId := none,
              location := (max_size - c4Row.PositionX, -(max_size - c4Row.PositionZ),
                           c4Row.PositionY),
              rotation := ⟨.deg (90 + c4Row.RotationZ), .deg c4Row.RotationX,
                           .deg (90 + c4Row.RotationY)⟩,
              scale := (match c4Row.ScaleFactor with
                        | some s => (s, s, s)
                        | none => ({ oid := 0, name := "w.obj",
                                     dataId := some 0 } : BObject).scale) }]) ∧
    (∃ sc', adtWMOBranch (importGo c4Fs stWMO (0 + 1)) c4Fs "" none c4Scene c4Row = .ok sc'
       ∧ sc'.objects.map BObject.dataId
           = c4Scene.objects.map BObject.dataId ++ [none, some c4Scene.nextDataId]
       ∧ ∀ b ∈ c4Scene.objects, b.dataId ≠ some c4Scene.nextDataId) :=
  ⟨C4_instancing.1 recStub "" none c4Scene c4Row
      { oid := 0, name := "w.obj", dataId := some 0 }
      (by decide) (by decide) (by decide),
   C4_instancing.2 0 c4Fs stWMO "" none c4Scene c4Row
      (by decide) (by decide) rfl (by decide) (by decide) (by decide) (by decide)⟩

/-- C1 (amended): the ADT transform formulas of the claim hold - location
`(max_size - PositionX, -(max_size - PositionZ), PositionY)` with
`max_size = 51200/3`, rotation x incremented by RotationZ, y incremented by
RotationX, z set to 90 + RotationY degrees, and a present ScaleFactor
applied to all three axes - on each of the three ADT resolution paths:
a fresh `m2` import (where an absent ScaleFactor indeed leaves the
Blender-default unit scale), the `m2` copy path (where, correcting the
claim, an absent ScaleFactor keeps the donor object's scale, which need
not be 1), and the `wmo` branch (whose parent empty carries the transform;
the rotation increments start from x = 0 there and from x = 90 on the m2
paths, both written out explicitly). -/
theorem C1_adt_transform :
    (∀ (fuel : Nat) (fs : FS) (settings : Settings) (baseDir : String) (dp : Option Nat)
        (sc : Scene) (row : Row),
      (∀ b ∈ sc.objects, b.oid < sc.nextOid) →
      sc.hasName (pyBasename row.ModelFile) = false →
      osJoin baseDir row.ModelFile ∈ fs.files →
      fs.lookupTable (pyReplace (osJoin baseDir row.ModelFile) ".obj" csvSuffix) = none →
      ∃ sc', adtM2Branch (importGo fs settings (fuel + 1)) baseDir dp sc row = .ok sc'
        ∧ sc'.objects = sc.objects ++
            [{ oid := sc.nextOid,
               name := freshName sc (pyBasename (osJoin baseDir row.ModelFile)),
               dataId := some sc.nextDataId,
               parentId := dp,
               location := (max_size - row.PositionX, -(max_size - row.PositionZ),
                            row.PositionY),
               rotation := ⟨.deg (90 + row.RotationZ), .deg row.RotationX,
                            .deg (90 + row.RotationY)⟩,
               scale := (match row.ScaleFactor with
                         | some s => (s, s, s)
                         | none => (1, 1, 1)) }]) ∧
    (∀ (rec : Importer) (baseDir : String) (dp : Option Nat) (sc : Scene) (row : Row)
        (orig : BObject),
      (∀ b ∈ sc.objects, b.oid < sc.nextOid) →
      sc.hasName (pyBasename row.ModelFile) = true →
      sc.findByName (pyBasename row.ModelFile) = some orig →
      ∃ sc', adtM2Branch rec baseDir dp sc row = .ok sc'
        ∧ sc'.objects = sc.objects ++
            [{ oid := sc.nextOid, name := freshName sc orig.name, dataId := orig.dataId,
               parentId := dp,
               location := (max_size - row.PositionX, -(max_size - row.PositionZ),
                            row.PositionY),
               rotation := ⟨.deg (90 + row.RotationZ), .deg row.RotationX,
                            .deg (90 + row.RotationY)⟩,
               scale := (match row.ScaleFactor with
                         | some s => (s, s, s)
                         | none => orig.scale) }]) ∧
    (∀ (fuel : Nat) (fs : FS) (settings : Settings) (baseDir : String) (wp : Option Nat)
        (sc : Scene) (row : Row),
      (∀ b ∈ sc.objects, b.oid < sc.nextOid) →
      settings.importWMO = true →
      sc.hasName (pyBasename row.ModelFile) = true →
      osJoin baseDir row.ModelFile ∈ fs.files →
      (fs.lookupTable (osJoin baseDir (pyReplace row.ModelFile ".obj" csvSuffix))).isSome
        = true →
      fs.lookupTable (pyReplace (osJoin baseDir row.ModelFile) ".obj" csvSuffix)
        = some ⟨false, []⟩ →
      ∃ sc', adtWMOBranch (importGo fs settings (fuel + 1)) fs baseDir wp sc row = .ok sc'
        ∧ sc'.objects.map BObject.location
            = sc.objects.map BObject.location
              ++ [(max_size - row.PositionX, -(max_size - row.PositionZ), row.PositionY),
                  (0, 0, 0)]
        ∧ sc'.objects.map BObject.rotation
            = sc.objects.map BObject.rotation
              ++ [⟨.deg row.RotationZ, .deg row.RotationX, .deg (90 + row.RotationY)⟩,
                  ⟨.deg 90, .deg 0, .deg 0⟩]
        ∧ sc'.objects.map BObject.scale
            = sc.objects.map BObject.scale
              ++ [(match row.ScaleFactor with
                   | some s => (s, s, s)
                   | none => (1, 1, 1)),
                  (1, 1, 1)]) := by
  refine ⟨?_, ?_, ?_⟩
  · intro fuel fs settings baseDir dp sc row hwf hname hfile hnocsv
    obtain ⟨sc', heq, hobj, _, _, _⟩ :=
      adtM2BranchFresh fuel fs settings baseDir dp sc row hwf hname hfile hnocsv
    exact ⟨sc', heq, hobj⟩
  · intro rec baseDir dp sc row orig hwf hname hfind
    obtain ⟨sc', heq, hobj, _, _, _⟩ :=
      adtM2BranchCopy rec baseDir dp sc row orig hwf hname hfind
    exact ⟨sc', heq, hobj⟩
  · intro fuel fs settings baseDir wp sc row hwf hwmo hname hfile hcsv1 hcsv2
    obtain ⟨sc', heq, _, _, hloc, hrot, hscale, _⟩ :=
      adtWMOBranchReparse fuel fs settings baseDir wp sc row hwf hwmo hname hfile hcsv1 hcsv2
    exact ⟨sc', heq, hloc, hrot, hscale⟩

/-- C1 witness: the three resolution paths instantiated concretely - a
fresh `m2` import of `m.obj` from the empty scene, the `m2` copy of the
already-present `w.obj`, and the `wmo` re-parse of `w.obj` - each with the
claimed location, rotation and scale columns. -/
theorem C1_adt_transform_witness :
    (∃ sc', adtM2Branch (importGo c1Fs {} (0 + 1)) "" none emptyScene dedupRow = .ok sc'
       ∧ sc'.objects = emptyScene.objects ++
           [{ oid := emptyScene.nextOid,
              name := freshName emptyScene (pyBasename (osJoin "" dedupRow.ModelFile)),
              dataId := some emptyScene.nextDataId,
              parentId := none,
              location := (max_size - dedupRow.PositionX,
                           -(max_size - dedupRow.PositionZ), dedupRow.PositionY),
              rotation := ⟨.deg (90 + dedupRow.RotationZ), .deg dedupRow.RotationX,
                           .deg (90 + dedupRow.RotationY)⟩,
              scale := (match dedupRow.ScaleFactor with
                        | some s => (s, s, s)
                        | none => (1, 1, 1)) }]) ∧
    (∃ sc', adtM2Branch recStub "" none c4Scene c4Row = .ok sc'
       ∧ sc'.objects = c4Scene.objects ++
           [{ oid := c4Scene.nextOid,
              name := freshName c4Scene ({ oid := 0, name := "w.obj",
                                           dataId := some 0 } : BObject).name,
              dataId := ({ oid := 0, name := "w.obj",
                           dataId := some 0 } : BObject).dataId,
              parentId := none,
              location := (max_size - c4Row.PositionX, -(max_size - c4Row.PositionZ),
                           c4Row.PositionY),
              rotation := ⟨.deg (90 + c4Row.RotationZ), .deg c4Row.RotationX,
                           .deg (90 + c4Row.RotationY)⟩,
              scale := (match c4Row.ScaleFactor with
                        | some s => (s, s, s)
                        | none => ({ oid := 0, name := "w.obj",
                                     dataId := some 0 } : BObject).scale) }]) ∧
    (∃ sc', adtWMOBranch (importGo c4Fs stWMO (0 + 1)) c4Fs "" none c4Scene c4Row = .ok sc'
       ∧ sc'.objects.map BObject.location
           = c4Scene.objects.map BObject.location
             ++ [(max_size - c4Row.PositionX, -(max_size - c4Row.PositionZ),
                  c4Row.PositionY), (0, 0, 0)]
       ∧ sc'.objects.map BObject.rotation
           = c4Scene.objects.map BObject.rotation
             ++ [⟨.deg c4Row.RotationZ, .deg c4Row.RotationX,
                  .deg (90 + c4Row.RotationY)⟩, ⟨.deg 90, .deg 0, .deg 0⟩]
       ∧ sc'.objects.map BObject.scale
           = c4Scene.objects.map BObject.scale
             ++ [(match c4Row.ScaleFactor with
                  | some s => (s, s, s)
                  | none => (1, 1, 1)), (1, 1, 1)]) :=
  ⟨C1_adt_transform.1 0 c1Fs {} "" none emptyScene dedupRow
      (by decide) (by decide) (by decide) rfl,
   C1_adt_transform.2.1 recStub "" none c4Scene c4Row
      { oid := 0, name := "w.obj", dataId := some 0 }
      (by decide) (by decide) (by decide),
   C1_adt_transform.2.2 0 c4Fs stWMO "" none c4Scene c4Row
      (by decide) rfl (by decide) (by decide) (by decide) (by decide)⟩

/-- C5 (amended): the importer has no cycle guard and never raises a
`CyclicReferenceError` - over any file system, settings, fuel, file and
scene the result is never that error; instead a self-referencing ADT
table recurses without bound (because the registry write of line 515 only
happens after the recursive call returns, no level of the descent sees
the id registered): on the concrete cyclic tile, every fuel value is
exhausted. -/
theorem C5_no_cyclic_error :
    (∀ (fs : FS) (settings : Settings) (fuel : Nat) (f : String) (gp : Option Nat)
        (sc : Scene), importGo fs settings fuel f gp sc ≠ .error .cyclicReference)
    ∧ (∀ fuel : Nat,
        importGo fsCyclic stWMO (fuel + 1) "A.obj" none emptyScene = .error .outOfFuel) := by
  constructor
  · intro fs settings fuel f gp sc
    exact importGo_noCyc fs settings fuel f gp sc
  · intro fuel
    exact cyclicAux (fuel + 1) none emptyScene (Or.inr rfl) rfl

end WowObj
